import Mathlib

/-!
Verification development for the instruction-execution core of the pysmali
Smali bridge (`src/smali/bridge/executor.py`, `src/smali/bridge/objects.py`).

The Python source is shallowly embedded: every opcode handler of the executor
module becomes a Lean function over an explicit frame/heap state, the opcode
registry built by the `@OpcodeExecutor` decorators becomes a concrete
association list, and the Python value domain becomes the tagged union
`Value`.  External collaborators that are not part of the two source files
(the `Frame` container, the literal parser `SmaliValue`, the `Type`
descriptor helper, the `SmaliObject` runtime object and the VM class table)
are modelled from the specification, as noted on each definition.
-/

set_option maxRecDepth 100000

namespace Pysmali

/-- The tagged value domain held by registers, fields and array slots
(spec §3): Python ints are unbounded `Int`, Python floats are modelled
exactly by rationals (only literal values such as `0.0` occur in the
executor), arrays and dynamic instances are references into an explicit
heap, and `err` is an `ExecutionError` object stored as a value (the
`ErrorRef` variant, produced by the `throw` handler). -/
inductive Value where
  | int (n : Int)
  | float (q : Rat)
  | bool (b : Bool)
  | str (s : String)
  | arr (ref : Nat)
  | obj (ref : Nat)
  | cls (name : String)
  | err (kind : String) (payload : Value)
  | null
deriving DecidableEq

/-- A raised `ExecutionError(kind, message-or-value)` from
`smali.bridge.errors`: the handlers construct it with an error-kind string
and a payload (a message, abbreviated here, or for `throw` a `Value`). -/
structure EErr where
  kind : String
  payload : Value
deriving DecidableEq

deriving instance DecidableEq for Except

/-- Update (or add) a key in an association list, keeping the original
position of an existing key, as a Python `dict` assignment does. -/
def setAssoc [DecidableEq κ] : List (κ × α) → κ → α → List (κ × α)
  | [], k, v => [(k, v)]
  | (k', v') :: rest, k, v =>
    if k' = k then (k, v) :: rest else (k', v') :: setAssoc rest k v

/-- Python's substring test `needle in haystack` on char lists. -/
def isInfixChars (needle : List Char) : List Char → Bool
  | [] => needle.isEmpty
  | c :: rest => needle.isPrefixOf (c :: rest) || isInfixChars needle rest

/-- Python's `in` operator on strings: contiguous-substring test (the empty
string is a substring of everything). -/
def pyInStr (needle haystack : String) : Bool :=
  isInfixChars needle.data haystack.data

/-- Split on the two-character separator `->` (Python `s.split('->')`). -/
def splitArrow : List Char → List (List Char)
  | [] => [[]]
  | '-' :: '>' :: rest => [] :: splitArrow rest
  | c :: rest =>
    match splitArrow rest with
    | [] => [[c]]
    | p :: ps => (c :: p) :: ps

/-- Split on the separator `:` (Python `s.split(':')`). -/
def splitColon : List Char → List (List Char)
  | [] => [[]]
  | ':' :: rest => [] :: splitColon rest
  | c :: rest =>
    match splitColon rest with
    | [] => [[c]]
    | p :: ps => (c :: p) :: ps

/-- Destructuring `a, b = s.split(sep)`: succeeds only when the split has
exactly two parts, otherwise Python raises `ValueError`. -/
def split2 (splitter : List Char → List (List Char)) (s : String) :
    Except EErr (String × String) :=
  match splitter s.data with
  | [a, b] => .ok (⟨a⟩, ⟨b⟩)
  | _ => .error ⟨"ValueError", .str s⟩

/-! ### The literal parser

Modelled from the spec: the literal-parsing collaborator (`SmaliValue` from
the `smali` package, which is not under `src/`): "text-literal → Value".
Decimal and hexadecimal integer literals with an optional leading minus
parse to `Value.int`; `true`/`false` to `Value.bool`; a double-quoted token
to the enclosed `Value.str`; any other token is kept as a raw string. -/

def decDigit (c : Char) : Option Nat :=
  if '0' ≤ c ∧ c ≤ '9' then some (c.toNat - 48) else none

def hexDigit (c : Char) : Option Nat :=
  if '0' ≤ c ∧ c ≤ '9' then some (c.toNat - 48)
  else if 'a' ≤ c ∧ c ≤ 'f' then some (c.toNat - 87)
  else if 'A' ≤ c ∧ c ≤ 'F' then some (c.toNat - 55)
  else none

def parseDigits (digit : Char → Option Nat) (base : Nat) (l : List Char) :
    Option Nat :=
  if l.isEmpty then none
  else l.foldlM (fun acc c => (digit c).map (fun d => acc * base + d)) 0

/-- Integer view of a literal token: optional `-`, then decimal digits or a
`0x` hexadecimal form. -/
def smaliValueInt (s : String) : Option Int :=
  let core : List Char → Option Nat := fun l =>
    match l with
    | '0' :: 'x' :: ds => parseDigits hexDigit 16 ds
    | ds => parseDigits decDigit 10 ds
  match s.data with
  | '-' :: rest => (core rest).map (fun m => -(m : Int))
  | rest => (core rest).map (fun m => (m : Int))

def SmaliValue (s : String) : Value :=
  match smaliValueInt s with
  | some n => .int n
  | none =>
    if s = "true" then .bool true
    else if s = "false" then .bool false
    else
      match s.data with
      | '"' :: rest => .str ⟨rest.dropLast⟩
      | _ => .str s

/-! ### Python arithmetic on values

Python's dynamic operators, restricted to the numeric, boolean and string
operands the executor's registers actually hold (`bool` coerces to `0`/`1`
as in Python); other operand combinations raise `TypeError`. -/

/-- Integer view used by Python's integer contexts: ints and bools. -/
def Value.toIntNum : Value → Option Int
  | .int n => some n
  | .bool b => some (if b then 1 else 0)
  | _ => none

/-- Rational view of any Python number (ints, bools and floats). -/
def Value.toRat : Value → Option Rat
  | .int n => some (n : Rat)
  | .bool b => some (if b then (1 : Rat) else 0)
  | .float q => some q
  | _ => none

def typeFault (opname : String) : EErr := ⟨"TypeError", .str opname⟩

/-- Two's-complement bitwise AND on unbounded integers (Python `&`).
The negative cases use `a AND NOT b = a - (a AND b)` on magnitudes so that
concrete instances evaluate with kernel-accelerated `Nat` operations. -/
def intAnd : Int → Int → Int
  | .ofNat m, .ofNat n => .ofNat (m &&& n)
  | .ofNat m, .negSucc n => .ofNat (m - (m &&& n))
  | .negSucc m, .ofNat n => .ofNat (n - (n &&& m))
  | .negSucc m, .negSucc n => .negSucc (m ||| n)

/-- Two's-complement bitwise OR on unbounded integers (Python `|`). -/
def intOr : Int → Int → Int
  | .ofNat m, .ofNat n => .ofNat (m ||| n)
  | .ofNat m, .negSucc n => .negSucc (n - (n &&& m))
  | .negSucc m, .ofNat n => .negSucc (m - (m &&& n))
  | .negSucc m, .negSucc n => .negSucc (m &&& n)

/-- Two's-complement bitwise XOR on unbounded integers (Python `^`). -/
def intXor : Int → Int → Int
  | .ofNat m, .ofNat n => .ofNat (m ^^^ n)
  | .ofNat m, .negSucc n => .negSucc (m ^^^ n)
  | .negSucc m, .ofNat n => .negSucc (m ^^^ n)
  | .negSucc m, .negSucc n => .ofNat (m ^^^ n)

/-- A numeric binary operator: exact on ints (in Python's arbitrary
precision), via the rational model when a float is involved. -/
def numBin (intF : Int → Int → Int) (ratF : Rat → Rat → Rat)
    (opname : String) (a b : Value) : Except EErr Value :=
  match a.toIntNum, b.toIntNum with
  | some x, some y => .ok (.int (intF x y))
  | _, _ =>
    match a.toRat, b.toRat with
    | some x, some y => .ok (.float (ratF x y))
    | _, _ => .error (typeFault opname)

def pyAdd : Value → Value → Except EErr Value
  | .str s, .str t => .ok (.str (s ++ t))
  | a, b => numBin (· + ·) (· + ·) "+" a b

def pySub (a b : Value) : Except EErr Value :=
  numBin (· - ·) (· - ·) "-" a b

/-- Python `*`; also covers string repetition `str * int`. -/
def pyMul : Value → Value → Except EErr Value
  | .str s, b =>
    match b.toIntNum with
    | some n => .ok (.str (String.join (List.replicate n.toNat s)))
    | none => .error (typeFault "*")
  | a, .str s =>
    match a.toIntNum with
    | some n => .ok (.str (String.join (List.replicate n.toNat s)))
    | none => .error (typeFault "*")
  | a, b => numBin (· * ·) (· * ·) "*" a b

/-- Python floor division `//` (floors toward negative infinity;
`ZeroDivisionError` on a zero divisor). -/
def pyFloorDiv (a b : Value) : Except EErr Value :=
  match a.toIntNum, b.toIntNum with
  | some x, some y =>
    if y = 0 then .error ⟨"ZeroDivisionError", .str "//"⟩
    else .ok (.int (Int.fdiv x y))
  | _, _ =>
    match a.toRat, b.toRat with
    | some x, some y =>
      if y = 0 then .error ⟨"ZeroDivisionError", .str "//"⟩
      else .ok (.float ((⌊x / y⌋ : Int) : Rat))
    | _, _ => .error (typeFault "//")

/-- Python true division `/` (always a float; exact in the rational model). -/
def pyDiv (a b : Value) : Except EErr Value :=
  match a.toRat, b.toRat with
  | some x, some y =>
    if y = 0 then .error ⟨"ZeroDivisionError", .str "/"⟩
    else .ok (.float (x / y))
  | _, _ => .error (typeFault "/")

/-- Python `%` (the sign follows the divisor, i.e. floor-mod;
`ZeroDivisionError` on a zero divisor). -/
def pyMod (a b : Value) : Except EErr Value :=
  match a.toIntNum, b.toIntNum with
  | some x, some y =>
    if y = 0 then .error ⟨"ZeroDivisionError", .str "%"⟩
    else .ok (.int (Int.fmod x y))
  | _, _ =>
    match a.toRat, b.toRat with
    | some x, some y =>
      if y = 0 then .error ⟨"ZeroDivisionError", .str "%"⟩
      else .ok (.float (x - y * ((⌊x / y⌋ : Int) : Rat)))
    | _, _ => .error (typeFault "%")

def bitBin (intF : Int → Int → Int) (opname : String) (a b : Value) :
    Except EErr Value :=
  match a.toIntNum, b.toIntNum with
  | some x, some y => .ok (.int (intF x y))
  | _, _ => .error (typeFault opname)

def pyAnd (a b : Value) : Except EErr Value := bitBin intAnd "&" a b
def pyOr (a b : Value) : Except EErr Value := bitBin intOr "|" a b
def pyXor (a b : Value) : Except EErr Value := bitBin intXor "^" a b

/-- Python `<<`: `n * 2^k`; a negative shift raises `ValueError`. -/
def pyShl (a b : Value) : Except EErr Value :=
  match a.toIntNum, b.toIntNum with
  | some x, some y =>
    if y < 0 then .error ⟨"ValueError", .str "negative shift count"⟩
    else .ok (.int (x * (2 : Int) ^ y.toNat))
  | _, _ => .error (typeFault "<<")

/-- Python `>>`: arithmetic shift, i.e. floor division by `2^k`. -/
def pyShr (a b : Value) : Except EErr Value :=
  match a.toIntNum, b.toIntNum with
  | some x, some y =>
    if y < 0 then .error ⟨"ValueError", .str "negative shift count"⟩
    else .ok (.int (Int.fdiv x ((2 : Int) ^ y.toNat)))
  | _, _ => .error (typeFault ">>")

/-- Python unary `-`. -/
def pyNeg : Value → Except EErr Value
  | .int n => .ok (.int (-n))
  | .bool b => .ok (.int (-(if b then (1 : Int) else 0)))
  | .float q => .ok (.float (-q))
  | _ => .error (typeFault "-")

/-- Python `==` (total, never raises): numeric equality across ints,
bools and floats; structural equality on strings; reference equality on
arrays and objects (the handlers only ever compare identical references,
so Python's elementwise list equality is not modelled further). -/
def pyEq (a b : Value) : Bool :=
  match a.toRat, b.toRat with
  | some x, some y => x = y
  | _, _ =>
    match a, b with
    | .str s, .str t => s = t
    | .null, .null => true
    | .arr i, .arr j => i = j
    | .obj i, .obj j => i = j
    | .cls c, .cls d => c = d
    | .err k v, .err k' v' => k = k' && v = v'
    | _, _ => false

/-- Python `<` on numbers and strings; anything else raises `TypeError`. -/
def pyLt (a b : Value) : Except EErr Bool :=
  match a.toRat, b.toRat with
  | some x, some y => .ok (decide (x < y))
  | _, _ =>
    match a, b with
    | .str s, .str t => .ok (decide (s < t))
    | _, _ => .error (typeFault "<")

/-- Python `<=` on numbers and strings. -/
def pyLe (a b : Value) : Except EErr Bool :=
  match a.toRat, b.toRat with
  | some x, some y => .ok (decide (x ≤ y))
  | _, _ =>
    match a, b with
    | .str s, .str t => .ok (decide (s ≤ t))
    | _, _ => .error (typeFault "<=")

def pyGt (a b : Value) : Except EErr Bool := pyLt b a
def pyGe (a b : Value) : Except EErr Bool := pyLe b a

/-! ### The class / object model and the frame

Modelled from the spec (§3, §6): the class and frame collaborators live
outside `src/` ("external, consumed not owned").  A class reference exposes
`method(signature) → Target` and `field(name) → Cell`; a dynamic instance
exposes field access by name and a back-reference to its declaring class;
the frame exposes the register file, label table, switch/array data tables
and the `return_value` / `method_return` / `error` slots. -/

/-- An external class: its descriptor, the descriptor of its direct
superclass (`super_cls` in the source), and the signatures of the methods
and names of the static fields it declares. -/
structure SmaliClass where
  name : String
  super_cls : String
  sigs : List String
  field_names : List String
deriving DecidableEq

/-- A resolved call target, as handed to the VM's `call` collaborator:
the descriptor of the class the method was resolved on, and the method
signature (spec §3: `method(signature) → Target`). -/
structure Target where
  owner : String
  sig : String
deriving DecidableEq

/-- `ClassRef.method(signature) → Target`; absence faults upstream as
`NoSuchMethodError`. -/
def SmaliClass.method (c : SmaliClass) (sig : String) : Option Target :=
  if sig ∈ c.sigs then some ⟨c.name, sig⟩ else none

/-- A dynamic instance (`SmaliObject` from `smali.bridge.lang`, not under
`src/`): its declaring class (the `smali_class` back-reference), its named
fields, and whether its zero-argument initializer (`init()`) has run. -/
structure SmaliObject where
  smali_class : SmaliClass
  fields : List (String × Value)
  initDone : Bool
deriving DecidableEq

/-- The mutable store behind references: allocated arrays, allocated
dynamic instances, and the static field cells of the class table. -/
structure Heap where
  arrays : List (List Value)
  objects : List SmaliObject
  statics : List ((String × String) × Value)
deriving DecidableEq

/-- The VM collaborator (spec §6): `get_class(descriptor) → ClassRef` as a
class table, and `call(target, receiver_or_none, *args) → Value` as an
abstract external call (the receiver is `Value.null` when Python passes
`None`). -/
structure VM where
  classes : List (String × SmaliClass)
  call : Target → Value → List Value → Value

def VM.get_class (vm : VM) (name : String) : Option SmaliClass :=
  vm.classes.lookup name

/-- `get_class` as the handlers use it: absence of the descriptor in the
class table faults. -/
def VM.get_classE (vm : VM) (name : String) : Except EErr SmaliClass :=
  match vm.get_class name with
  | some c => .ok c
  | none => .error ⟨"NoSuchClassError", .str name⟩

/-- The execution frame (spec §3): register file keyed by register name,
program position and label table, the packed and sparse switch-data tables
(the source keeps both in one `switch_data` table whose entries are either
a `(low, branches)` pair or an ordered literal→label mapping; they are
modelled as two tables over the same label keys), the array-data table
(holding references to literal arrays owned by the frame), and the
`return_value` / `method_return` / `error` slots with the `finished` flag.
The error slot holds `Value.null` while no error is pending, as Python's
`None` does. -/
structure Frame where
  registers : List (String × Value)
  pos : Int
  label : Option String
  labels : List (String × Int)
  switch_data : List (String × (String × List String))
  sparse_data : List (String × List (String × String))
  array_data : List (String × Nat)
  return_value : Value
  method_return : Value
  error : Value
  finished : Bool
deriving DecidableEq

/-- Register read, `self.frame[register]`. -/
def Frame.reg (f : Frame) (r : String) : Option Value :=
  f.registers.lookup r

/-- Register read as the handlers perform it: an unset register faults as
Python's `KeyError`. -/
def Frame.getReg (f : Frame) (r : String) : Except EErr Value :=
  match f.reg r with
  | some v => .ok v
  | none => .error ⟨"KeyError", .str r⟩

/-- Register write, `self.frame[register] = value`. -/
def Frame.setReg (f : Frame) (r : String) (v : Value) : Frame :=
  { f with registers := setAssoc f.registers r v }

/-- Array lookup behind an `arr` reference. -/
def Heap.array (h : Heap) (ref : Nat) : Except EErr (List Value) :=
  match h.arrays.get? ref with
  | some l => .ok l
  | none => .error ⟨"InvalidRef", .int ref⟩

/-- Object lookup behind an `obj` reference. -/
def Heap.object (h : Heap) (ref : Nat) : Except EErr SmaliObject :=
  match h.objects.get? ref with
  | some o => .ok o
  | none => .error ⟨"InvalidRef", .int ref⟩

/-- `Executor.cast(value, SmaliObject)`: raises `ClassCastError` unless the
value is a dynamic instance. -/
def castObject (v : Value) : Except EErr Nat :=
  match v with
  | .obj r => .ok r
  | _ => .error ⟨"ClassCastError", .str "SmaliObject"⟩

/-- Python container view for `len(...)` on a register value. -/
def pyLen (h : Heap) (v : Value) : Except EErr Int :=
  match v with
  | .str s => .ok (s.length : Int)
  | .arr r => (h.array r).map (fun l => (l.length : Int))
  | _ => .error (typeFault "len")

/-- Python list index resolution (negative indices wrap from the end;
anything out of range is an `IndexError`). -/
def pyIndex (len : Nat) (i : Int) : Option Nat :=
  let j := if i < 0 then i + (len : Int) else i
  if 0 ≤ j ∧ j < (len : Int) then some j.toNat else none

/-- The result of one handler run: a fault, or the mutated frame and heap. -/
abbrev StepR := Except EErr (Frame × Heap)

/-! ### Opcode handlers

One Lean function per handler function of `executor.py`, in source order.
The handlers receive the frame and heap explicitly (the source reads the
frame from the shared `self.frame` field — see the `ExecShared` model
below for that mechanism); `vm` stands for the source's `self.frame.vm`
back-reference. -/

def nop (f : Frame) (h : Heap) : StepR := .ok (f, h)

def return_void (f : Frame) (h : Heap) : StepR :=
  .ok ({ f with return_value := .null, finished := true }, h)

def return_object (f : Frame) (h : Heap) (register : String) : StepR := do
  let v ← f.getReg register
  .ok ({ f with return_value := v, finished := true }, h)

/-- `goto` on the frame alone (the handler leaves the heap untouched);
the conditional branches and switches call this directly, as the source
calls `goto.action`. -/
def gotoA (f : Frame) (label : String) : Except EErr Frame :=
  match f.labels.lookup label with
  | none => .error ⟨"NoSuchLabelError", .str label⟩
  | some p => .ok { f with label := some label, pos := p }

def goto (f : Frame) (h : Heap) (label : String) : StepR :=
  (gotoA f label).map (fun f' => (f', h))

/-- `args[0]` (Python raises `IndexError` on an empty argument list). -/
def pyHead : List String → Except EErr String
  | [] => .error ⟨"IndexError", .str "args"⟩
  | a :: _ => .ok a

/-- The `Object` native bridge from `objects.py`; string rendering of
references (`str(x)` on an object) and `id(x)` are abstracted. -/
def pyStr (v : Value) : String :=
  match v with
  | .str s => s
  | .int n => toString n
  | .bool b => cond b "True" "False"
  | .null => "None"
  | _ => "<object>"

def valueId : Value → Int
  | .obj r => (r : Int)
  | .arr r => (r : Int)
  | .int n => n
  | _ => 0

def objectBridgeHas (m : String) : Bool :=
  m = "toString()Ljava/lang/String;" || m = "<init>()V" ||
    m = "hashCode()I" || m = "getClass()Ljava/lang/Class;"

def objectBridge (h : Heap) (m : String) (x : Value) : Except EErr Value :=
  if m = "toString()Ljava/lang/String;" then .ok (.str (pyStr x))
  else if m = "<init>()V" then .ok x
  else if m = "hashCode()I" then .ok (.int (valueId x))
  else
    match x with
    | .obj r => (h.object r).map (fun o => .cls o.smali_class.name)
    | _ => .error ⟨"AttributeError", .str "smali_class"⟩

def invoke (vm : VM) (f : Frame) (h : Heap) (inv_type : String)
    (args : List String) (owner method : String) : StepR :=
  if inv_type = "direct" ∨ inv_type = "virtual" ∨ inv_type = "static" then
    if owner = "Ljava/lang/Class;" then do
      let a0 ← pyHead args
      let vm_class ← f.getReg a0
      -- the `Class` bridge of objects.py holds exactly `getSimpleName`
      if method = "getSimpleName()Ljava/lang/String;" then
        match vm_class with
        | .cls n => .ok ({ f with method_return := .str n }, h)
        | _ => .error ⟨"AttributeError", .str "name"⟩
      else .error ⟨"NoSuchMethodError", .str method⟩
    else if owner = "Ljava/lang/Object;" then
      if objectBridgeHas method then do
        let a0 ← pyHead args
        let x ← f.getReg a0
        let r ← objectBridge h method x
        .ok ({ f with method_return := r }, h)
      else .error ⟨"NoSuchMethodError", .str method⟩
    else do
      let values ← args.mapM f.getReg
      if inv_type ≠ "static" then do
        let instv ← match values with
          | [] => .error (⟨"IndexError", .str "args"⟩ : EErr)
          | v :: _ => .ok v
        let oref ← castRecv instv
        let orec ← h.object oref
        let super_cls := orec.smali_class.super_cls
        let vm_classOpt ←
          if super_cls = owner then (vm.get_classE super_cls).map some
          else .ok none
        let rest := values.tail
        let vm_class ← match vm_classOpt with
          | some c => .ok c
          | none => vm.get_classE owner
        let target ← methodE vm_class method
        .ok ({ f with method_return := vm.call target instv rest }, h)
      else do
        let vm_class ← vm.get_classE owner
        let target ← methodE vm_class method
        .ok ({ f with method_return := vm.call target .null values }, h)
  else .ok (f, h)
where
  /-- `instance.smali_class` on a non-object raises `AttributeError`. -/
  castRecv : Value → Except EErr Nat
    | .obj r => .ok r
    | _ => .error ⟨"AttributeError", .str "smali_class"⟩
  methodE (c : SmaliClass) (m : String) : Except EErr Target :=
    match c.method m with
    | some t => .ok t
    | none => .error ⟨"NoSuchMethodError", .str m⟩

def throw (f : Frame) (h : Heap) (register : String) : StepR := do
  let v ← f.getReg register
  .ok ({ f with error := .err "RuntimeError" v }, h)

def int_to_long (f : Frame) (h : Heap) (dest src : String) : StepR := do
  let v ← f.getReg src
  let r ← pyAnd v (.int 0xFFFFFFFFFFFFFFFF)
  .ok (f.setReg dest r, h)

def int_to_int (f : Frame) (h : Heap) (dest src : String) : StepR := do
  let v ← f.getReg src
  let r ← pyAnd v (.int 0xFFFFFFFF)
  .ok (f.setReg dest r, h)

def int_to_char (f : Frame) (h : Heap) (dest src : String) : StepR := do
  let v ← f.getReg src
  let r ← pyAnd v (.int 0xFFFF)
  .ok (f.setReg dest r, h)

/-- `int_to_byte` applies `struct.unpack('>i', value)` to the register's
value; that call only succeeds on a 4-byte buffer and the value domain has
no byte-buffer variant (no handler produces one), so it is modelled as the
type fault the unpack raises on every register value. -/
def int_to_byte (f : Frame) (h : Heap) (dest src : String) : StepR := do
  let _ ← f.getReg src
  .error ⟨"TypeError", .str "struct.unpack"⟩

def int_to_float (f : Frame) (h : Heap) (dest src : String) : StepR := do
  let v ← f.getReg src
  match v.toRat with
  | some q => .ok (f.setReg dest (.float q), h)
  | none => .error (typeFault "float")

def sput_object (vm : VM) (f : Frame) (h : Heap)
    (register dest : String) : StepR := do
  let value ← f.getReg register
  let (owner, name_type) ← split2 splitArrow dest
  let (name, _) ← split2 splitColon name_type
  let cls ← vm.get_classE owner
  if name ∈ cls.field_names then
    .ok (f, { h with statics := setAssoc h.statics (cls.name, name) value })
  else .error ⟨"NoSuchFieldError", .str name⟩

def sget_object (vm : VM) (f : Frame) (h : Heap)
    (register dest : String) : StepR := do
  let (owner, name_type) ← split2 splitArrow dest
  let (name, _) ← split2 splitColon name_type
  let cls ← vm.get_classE owner
  if name ∈ cls.field_names then
    .ok (f.setReg register ((h.statics.lookup (cls.name, name)).getD .null), h)
  else .error ⟨"NoSuchFieldError", .str name⟩

def iget_object (f : Frame) (h : Heap) (dest src info : String) : StepR := do
  let v ← f.getReg src
  let oref ← castObject v
  let (_, fieldpart) ← split2 splitArrow info
  let (field_name, _) ← split2 splitColon fieldpart
  let orec ← h.object oref
  match orec.fields.lookup field_name with
  | some fv => .ok (f.setReg dest fv, h)
  | none => .error ⟨"KeyError", .str field_name⟩

def iput_object (f : Frame) (h : Heap) (src obj info : String) : StepR := do
  let v ← f.getReg obj
  let oref ← castObject v
  let (_, fieldpart) ← split2 splitArrow info
  let (field_name, _) ← split2 splitColon fieldpart
  let orec ← h.object oref
  let sv ← f.getReg src
  let orec' := { orec with fields := setAssoc orec.fields field_name sv }
  .ok (f, { h with objects := h.objects.set oref orec' })

def const (f : Frame) (h : Heap) (register value : String) : StepR :=
  .ok (f.setReg register (SmaliValue value), h)

def const_class (vm : VM) (f : Frame) (h : Heap)
    (register name : String) : StepR := do
  let c ← vm.get_classE name
  .ok (f.setReg register (.cls c.name), h)

def move_result (f : Frame) (h : Heap) (register : String) : StepR :=
  .ok (f.setReg register f.method_return, h)

def move (f : Frame) (h : Heap) (dest src : String) : StepR := do
  let v ← f.getReg src
  .ok (f.setReg dest v, h)

def move_exception (f : Frame) (h : Heap) (dest : String) : StepR :=
  .ok (f.setReg dest f.error, h)

def new_instance (vm : VM) (f : Frame) (h : Heap)
    (register descriptor : String) : StepR :=
  -- Python's `descriptor in "ISBJ"` is a substring test, not membership
  if pyInStr descriptor "ISBJ" then .ok (f.setReg register (.int 0), h)
  else if pyInStr descriptor "FD" then .ok (f.setReg register (.float 0), h)
  else if descriptor = "Ljava/lang/String;" ∨ descriptor = "C" ∨
      descriptor = "Ljava/lang/Character;" then
    .ok (f.setReg register (.str ""), h)
  else if descriptor = "Ljava/lang/Integer;" ∨ descriptor = "Ljava/lang/Byte;" ∨
      descriptor = "Ljava/lang/Long" ∨ descriptor = "Ljava/lang/Short;" then
    .ok (f.setReg register (.int 0), h)
  else if descriptor = "Ljava/lang/Boolean" ∨ descriptor = "Z" then
    .ok (f.setReg register (.bool false), h)
  else do
    let smali_class ← vm.get_classE descriptor
    -- `SmaliObject(smali_class)` then `instance.init()`: a fresh instance
    let inst : SmaliObject := ⟨smali_class, [], true⟩
    .ok (f.setReg register (.obj h.objects.length),
      { h with objects := h.objects ++ [inst] })

/-- Modelled from the spec for the `Type` collaborator: descriptor-string →
element class name for arrays (array dimensions stripped). -/
def typeClassName (descriptor : String) : String :=
  ⟨descriptor.data.dropWhile (· = '[')⟩

def new_array (f : Frame) (h : Heap)
    (dest count_register descriptor : String) : StepR := do
  let cls := typeClassName descriptor
  let cnt ← f.getReg count_register
  match cnt.toIntNum with
  | none => .error (typeFault "*")  -- `[None] * count` needs an int
  | some n =>
    let len := n.toNat  -- a negative count yields an empty Python list
    let values :=
      if pyInStr cls "BSIJ" then List.replicate len (Value.int 0)
      else if pyInStr cls "FD" then List.replicate len (Value.float 0)
      else List.replicate len Value.null
    .ok (f.setReg dest (.arr h.arrays.length),
      { h with arrays := h.arrays ++ [values] })

def packed_switch (f : Frame) (h : Heap) (register data : String) : StepR :=
  match f.switch_data.lookup data with
  | none => .error ⟨"KeyError", .str data⟩
  | some (switch_value, cases) => do
    let value ← f.getReg register
    -- `idx = value - SmaliValue(switch_value)`; the scrutinee and the low
    -- value are integers (a non-integer would fault at the later indexing)
    let idxv ← pySub value (SmaliValue switch_value)
    match idxv with
    | .int idx =>
      if idx < 0 ∨ (cases.length : Int) ≤ idx then .ok (f, h)
      else goto f h (cases.getD idx.toNat "")  -- in range: default unused
    | _ => .error (typeFault "list index")

/-- The first-match linear scan of the sparse-switch handler body. -/
def sparse_scan (f : Frame) (h : Heap) (value : Value) :
    List (String × String) → StepR
  | [] => .ok (f, h)
  | (key, label) :: rest =>
    if pyEq (SmaliValue key) value then goto f h label
    else sparse_scan f h value rest

def sparse_switch (f : Frame) (h : Heap) (register label_name : String) :
    StepR :=
  match f.sparse_data.lookup label_name with
  | none => .error ⟨"KeyError", .str label_name⟩
  | some branches => do
    let value ← f.getReg register
    sparse_scan f h value branches

def if_cmp (cmp : Value → Value → Except EErr Bool) (f : Frame) (h : Heap)
    (left right label : String) : StepR := do
  let a ← f.getReg left
  let b ← f.getReg right
  let c ← cmp a b
  if c then goto f h label else .ok (f, h)

def if_zero (cmp : Value → Value → Except EErr Bool) (f : Frame) (h : Heap)
    (left label : String) : StepR := do
  let a ← f.getReg left
  let c ← cmp a (.int 0)
  if c then goto f h label else .ok (f, h)

def if_zero_eq (eq : Bool) (f : Frame) (h : Heap)
    (left label : String) : StepR := do
  let a ← f.getReg left
  if pyEq a (.int 0) = eq then goto f h label else .ok (f, h)

def if_le (f : Frame) (h : Heap) (left right label : String) : StepR :=
  if_cmp pyLe f h left right label

def if_ge (f : Frame) (h : Heap) (left right label : String) : StepR :=
  if_cmp pyGe f h left right label

def if_gez (f : Frame) (h : Heap) (left label : String) : StepR :=
  if_zero pyGe f h left label

def if_ltz (f : Frame) (h : Heap) (left label : String) : StepR :=
  if_zero pyLt f h left label

def if_gt (f : Frame) (h : Heap) (left right label : String) : StepR :=
  if_cmp pyGt f h left right label

def if_lt (f : Frame) (h : Heap) (left right label : String) : StepR :=
  if_cmp pyLt f h left right label

def if_gtz (f : Frame) (h : Heap) (left label : String) : StepR :=
  if_zero pyGt f h left label

def if_ne (f : Frame) (h : Heap) (left right label : String) : StepR := do
  let a ← f.getReg left
  let b ← f.getReg right
  if pyEq a b then .ok (f, h) else goto f h label

def if_lez (f : Frame) (h : Heap) (left label : String) : StepR :=
  if_zero pyLe f h left label

def if_nez (f : Frame) (h : Heap) (left label : String) : StepR :=
  if_zero_eq false f h left label

def if_eqz (f : Frame) (h : Heap) (left label : String) : StepR :=
  if_zero_eq true f h left label

def array_length (f : Frame) (h : Heap) (dest array : String) : StepR := do
  let v ← f.getReg array
  let n ← pyLen h v
  .ok (f.setReg dest (.int n), h)

def fill_array_data (f : Frame) (h : Heap) (dest label : String) : StepR :=
  match f.array_data.lookup label with
  | some ref => .ok (f.setReg dest (.arr ref), h)
  | none => .error ⟨"KeyError", .str label⟩

def aget (f : Frame) (h : Heap) (dest array index : String) : StepR := do
  let idx_value ← f.getReg index
  let array_data ← f.getReg array
  match idx_value.toIntNum with
  | none => .error (typeFault "<")  -- `idx_value < 0` on a non-number
  | some idx =>
    -- Mirrors the source faithfully: the bound is `len(array)` where
    -- `array` is the register-NAME string, not the array it holds
    -- (`len(array)` vs `len(array_data)` in executor.py).
    if idx < 0 ∨ (array.length : Int) ≤ idx then
      .error ⟨"IndexOutOfBoundsError", .int idx⟩
    else
      match array_data with
      | .arr aref => do
        let data ← h.array aref
        match pyIndex data.length idx with
        | some j => .ok (f.setReg dest (data.getD j .null), h)
        | none => .error ⟨"IndexError", .int idx⟩
      | _ => .error (typeFault "subscript")

def aput (f : Frame) (h : Heap) (src array index : String) : StepR := do
  let idx_value ← f.getReg index
  let array_data ← f.getReg array
  match idx_value.toIntNum with
  | none => .error (typeFault "<")
  | some idx =>
    -- Same register-name bound as `aget`: `len(array)` is the length of
    -- the register-name string.
    if idx < 0 ∨ (array.length : Int) < idx then
      .error ⟨"IndexOutOfBoundsError", .int idx⟩
    else
      match array_data with
      | .arr aref => do
        let data ← h.array aref
        let v ← f.getReg src
        if (array.length : Int) = idx then
          .ok (f, { h with arrays := h.arrays.set aref (data ++ [v]) })
        else
          match pyIndex data.length idx with
          | some j => .ok (f, { h with arrays := h.arrays.set aref (data.set j v) })
          | none => .error ⟨"IndexError", .int idx⟩
      | _ => .error (typeFault "subscript")

/-! Arithmetic shapes: 2-address (`dest op= src`), 3-address
(`dest = left op right`) and literal-immediate (`lit8`/`lit16`, the
right operand is a literal token masked after parsing). -/

def unop (op : Value → Except EErr Value) (f : Frame) (h : Heap)
    (dest src : String) : StepR := do
  let v ← f.getReg src
  let r ← op v
  .ok (f.setReg dest r, h)

def binop2addr (op : Value → Value → Except EErr Value) (f : Frame)
    (h : Heap) (dest src : String) : StepR := do
  let a ← f.getReg dest
  let b ← f.getReg src
  let r ← op a b
  .ok (f.setReg dest r, h)

def binop3 (op : Value → Value → Except EErr Value) (f : Frame) (h : Heap)
    (dest left right : String) : StepR := do
  let a ← f.getReg left
  let b ← f.getReg right
  let r ← op a b
  .ok (f.setReg dest r, h)

/-- `dest = frame[left] op (SmaliValue(right) & mask)`. -/
def litop (op : Value → Value → Except EErr Value) (mask : Int) (f : Frame)
    (h : Heap) (dest left right : String) : StepR := do
  let a ← f.getReg left
  let m ← pyAnd (SmaliValue right) (.int mask)
  let r ← op a m
  .ok (f.setReg dest r, h)

def neg_int (f : Frame) (h : Heap) (dest src : String) : StepR :=
  unop pyNeg f h dest src

def or_int__2addr (f : Frame) (h : Heap) (dest src : String) : StepR :=
  binop2addr pyOr f h dest src

def and_int__2addr (f : Frame) (h : Heap) (dest src : String) : StepR :=
  binop2addr pyAnd f h dest src

def sub_int__2addr (f : Frame) (h : Heap) (dest src : String) : StepR :=
  binop2addr pySub f h dest src

def xor_int__2addr (f : Frame) (h : Heap) (dest src : String) : StepR :=
  binop2addr pyXor f h dest src

def add_int__2addr (f : Frame) (h : Heap) (dest src : String) : StepR :=
  binop2addr pyAdd f h dest src

def div_int__2addr (f : Frame) (h : Heap) (dest src : String) : StepR :=
  binop2addr pyFloorDiv f h dest src

def div_float__2addr (f : Frame) (h : Heap) (dest src : String) : StepR :=
  binop2addr pyDiv f h dest src

def shl_int__2addr (f : Frame) (h : Heap) (dest src : String) : StepR :=
  binop2addr pyShl f h dest src

def shr_int__2addr (f : Frame) (h : Heap) (dest src : String) : StepR :=
  binop2addr pyShr f h dest src

def rem_int__2addr (f : Frame) (h : Heap) (dest src : String) : StepR :=
  binop2addr pyMod f h dest src

def mul_int__2addr (f : Frame) (h : Heap) (dest src : String) : StepR :=
  binop2addr pyMul f h dest src

def div_int__lit8 (f : Frame) (h : Heap) (dest left right : String) : StepR :=
  litop pyFloorDiv 0xFF f h dest left right

def div_int__lit16 (f : Frame) (h : Heap) (dest left right : String) : StepR :=
  litop pyFloorDiv 0xFFFF f h dest left right

def add_int__lit8 (f : Frame) (h : Heap) (dest left right : String) : StepR :=
  litop pyAdd 0xFF f h dest left right

def add_int__lit16 (f : Frame) (h : Heap) (dest left right : String) : StepR :=
  litop pyAdd 0xFFFF f h dest left right

def sub_int__lit8 (f : Frame) (h : Heap) (dest left right : String) : StepR :=
  litop pySub 0xFF f h dest left right

def sub_int__lit16 (f : Frame) (h : Heap) (dest left right : String) : StepR :=
  litop pySub 0xFFFF f h dest left right

def mul_int__lit8 (f : Frame) (h : Heap) (dest left right : String) : StepR :=
  litop pyMul 0xFF f h dest left right

def mul_int__lit16 (f : Frame) (h : Heap) (dest left right : String) : StepR :=
  litop pyMul 0xFFFF f h dest left right

def rem_int__lit8 (f : Frame) (h : Heap) (dest left right : String) : StepR :=
  litop pyMod 0xFF f h dest left right

def rem_int__lit16 (f : Frame) (h : Heap) (dest left right : String) : StepR :=
  litop pyMod 0xFFFF f h dest left right

def and_int__lit8 (f : Frame) (h : Heap) (dest left right : String) : StepR :=
  litop pyAnd 0xFF f h dest left right

def and_int__lit16 (f : Frame) (h : Heap) (dest left right : String) : StepR :=
  litop pyAnd 0xFFFF f h dest left right

def or_int__lit8 (f : Frame) (h : Heap) (dest left right : String) : StepR :=
  litop pyOr 0xFF f h dest left right

def or_int__lit16 (f : Frame) (h : Heap) (dest left right : String) : StepR :=
  litop pyOr 0xFFFF f h dest left right

def xor_int__lit8 (f : Frame) (h : Heap) (dest left right : String) : StepR :=
  litop pyXor 0xFF f h dest left right

def xor_int__lit16 (f : Frame) (h : Heap) (dest left right : String) : StepR :=
  litop pyXor 0xFFFF f h dest left right

def shl_int__lit8 (f : Frame) (h : Heap) (dest left right : String) : StepR :=
  litop pyShl 0xFF f h dest left right

def shl_int__lit16 (f : Frame) (h : Heap) (dest left right : String) : StepR :=
  litop pyShl 0xFFFF f h dest left right

def shr_int__lit8 (f : Frame) (h : Heap) (dest left right : String) : StepR :=
  litop pyShr 0xFF f h dest left right

def shr_int__lit16 (f : Frame) (h : Heap) (dest left right : String) : StepR :=
  litop pyShr 0xFFFF f h dest left right

/-- `rsub/lit8` evaluates `(SmaliValue(right) & 0xFF) - frame[left]`:
the masked literal is the LEFT operand of the subtraction and is
evaluated first. -/
def rsub_int__lit8 (f : Frame) (h : Heap) (dest left right : String) :
    StepR := do
  let m ← pyAnd (SmaliValue right) (.int 0xFF)
  let a ← f.getReg left
  let r ← pySub m a
  .ok (f.setReg dest r, h)

def div_int (f : Frame) (h : Heap) (dest left right : String) : StepR :=
  binop3 pyFloorDiv f h dest left right

def div_float (f : Frame) (h : Heap) (dest left right : String) : StepR :=
  binop3 pyDiv f h dest left right

def add_int (f : Frame) (h : Heap) (dest left right : String) : StepR :=
  binop3 pyAdd f h dest left right

def sub_int (f : Frame) (h : Heap) (dest left right : String) : StepR :=
  binop3 pySub f h dest left right

def rem_int (f : Frame) (h : Heap) (dest left right : String) : StepR :=
  binop3 pyMod f h dest left right

def mul_int (f : Frame) (h : Heap) (dest left right : String) : StepR :=
  binop3 pyMul f h dest left right

def or_int (f : Frame) (h : Heap) (dest left right : String) : StepR :=
  binop3 pyOr f h dest left right

def and_int (f : Frame) (h : Heap) (dest left right : String) : StepR :=
  binop3 pyAnd f h dest left right

def xor_int (f : Frame) (h : Heap) (dest left right : String) : StepR :=
  binop3 pyXor f h dest left right

def shl_int (f : Frame) (h : Heap) (dest left right : String) : StepR :=
  binop3 pyShl f h dest left right

def shr_int (f : Frame) (h : Heap) (dest left right : String) : StepR :=
  binop3 pyShr f h dest left right

/-! ### The dispatcher

A decoded instruction names its handler and carries its operand tokens;
`step` runs the named handler against the frame and heap.  One constructor
per handler function of `executor.py`. -/

inductive Instr where
  | nop
  | return_void
  | return_object (register : String)
  | goto (label : String)
  | invoke (inv_type : String) (args : List String) (owner method : String)
  | throw (register : String)
  | int_to_long (dest src : String)
  | int_to_int (dest src : String)
  | int_to_char (dest src : String)
  | int_to_byte (dest src : String)
  | int_to_float (dest src : String)
  | sput_object (register dest : String)
  | sget_object (register dest : String)
  | iget_object (dest src info : String)
  | iput_object (src obj info : String)
  | const (register value : String)
  | const_class (register name : String)
  | move_result (register : String)
  | move (dest src : String)
  | move_exception (dest : String)
  | new_instance (register descriptor : String)
  | new_array (dest count_register descriptor : String)
  | packed_switch (register data : String)
  | sparse_switch (register label_name : String)
  | if_le (left right label : String)
  | if_ge (left right label : String)
  | if_gez (left label : String)
  | if_ltz (left label : String)
  | if_gt (left right label : String)
  | if_lt (left right label : String)
  | if_gtz (left label : String)
  | if_ne (left right label : String)
  | if_lez (left label : String)
  | if_nez (left label : String)
  | if_eqz (left label : String)
  | array_length (dest array : String)
  | fill_array_data (dest label : String)
  | aget (dest array index : String)
  | aput (src array index : String)
  | neg_int (dest src : String)
  | or_int__2addr (dest src : String)
  | and_int__2addr (dest src : String)
  | sub_int__2addr (dest src : String)
  | xor_int__2addr (dest src : String)
  | add_int__2addr (dest src : String)
  | div_int__2addr (dest src : String)
  | div_float__2addr (dest src : String)
  | shl_int__2addr (dest src : String)
  | shr_int__2addr (dest src : String)
  | rem_int__2addr (dest src : String)
  | mul_int__2addr (dest src : String)
  | div_int__lit8 (dest left right : String)
  | div_int__lit16 (dest left right : String)
  | add_int__lit8 (dest left right : String)
  | add_int__lit16 (dest left right : String)
  | sub_int__lit8 (dest left right : String)
  | sub_int__lit16 (dest left right : String)
  | mul_int__lit8 (dest left right : String)
  | mul_int__lit16 (dest left right : String)
  | rem_int__lit8 (dest left right : String)
  | rem_int__lit16 (dest left right : String)
  | and_int__lit8 (dest left right : String)
  | and_int__lit16 (dest left right : String)
  | or_int__lit8 (dest left right : String)
  | or_int__lit16 (dest left right : String)
  | xor_int__lit8 (dest left right : String)
  | xor_int__lit16 (dest left right : String)
  | shl_int__lit8 (dest left right : String)
  | shl_int__lit16 (dest left right : String)
  | shr_int__lit8 (dest left right : String)
  | shr_int__lit16 (dest left right : String)
  | rsub_int__lit8 (dest left right : String)
  | div_int (dest left right : String)
  | div_float (dest left right : String)
  | add_int (dest left right : String)
  | sub_int (dest left right : String)
  | rem_int (dest left right : String)
  | mul_int (dest left right : String)
  | or_int (dest left right : String)
  | and_int (dest left right : String)
  | xor_int (dest left right : String)
  | shl_int (dest left right : String)
  | shr_int (dest left right : String)

def step (vm : VM) (f : Frame) (h : Heap) : Instr → StepR
  | .nop => nop f h
  | .return_void => return_void f h
  | .return_object r => return_object f h r
  | .goto l => goto f h l
  | .invoke t a o m => invoke vm f h t a o m
  | .throw r => throw f h r
  | .int_to_long d s => int_to_long f h d s
  | .int_to_int d s => int_to_int f h d s
  | .int_to_char d s => int_to_char f h d s
  | .int_to_byte d s => int_to_byte f h d s
  | .int_to_float d s => int_to_float f h d s
  | .sput_object r d => sput_object vm f h r d
  | .sget_object r d => sget_object vm f h r d
  | .iget_object d s i => iget_object f h d s i
  | .iput_object s o i => iput_object f h s o i
  | .const r v => const f h r v
  | .const_class r n => const_class vm f h r n
  | .move_result r => move_result f h r
  | .move d s => move f h d s
  | .move_exception d => move_exception f h d
  | .new_instance r d => new_instance vm f h r d
  | .new_array d c t => new_array f h d c t
  | .packed_switch r d => packed_switch f h r d
  | .sparse_switch r l => sparse_switch f h r l
  | .if_le a b l => if_le f h a b l
  | .if_ge a b l => if_ge f h a b l
  | .if_gez a l => if_gez f h a l
  | .if_ltz a l => if_ltz f h a l
  | .if_gt a b l => if_gt f h a b l
  | .if_lt a b l => if_lt f h a b l
  | .if_gtz a l => if_gtz f h a l
  | .if_ne a b l => if_ne f h a b l
  | .if_lez a l => if_lez f h a l
  | .if_nez a l => if_nez f h a l
  | .if_eqz a l => if_eqz f h a l
  | .array_length d a => array_length f h d a
  | .fill_array_data d l => fill_array_data f h d l
  | .aget d a i => aget f h d a i
  | .aput s a i => aput f h s a i
  | .neg_int d s => neg_int f h d s
  | .or_int__2addr d s => or_int__2addr f h d s
  | .and_int__2addr d s => and_int__2addr f h d s
  | .sub_int__2addr d s => sub_int__2addr f h d s
  | .xor_int__2addr d s => xor_int__2addr f h d s
  | .add_int__2addr d s => add_int__2addr f h d s
  | .div_int__2addr d s => div_int__2addr f h d s
  | .div_float__2addr d s => div_float__2addr f h d s
  | .shl_int__2addr d s => shl_int__2addr f h d s
  | .shr_int__2addr d s => shr_int__2addr f h d s
  | .rem_int__2addr d s => rem_int__2addr f h d s
  | .mul_int__2addr d s => mul_int__2addr f h d s
  | .div_int__lit8 d l r => div_int__lit8 f h d l r
  | .div_int__lit16 d l r => div_int__lit16 f h d l r
  | .add_int__lit8 d l r => add_int__lit8 f h d l r
  | .add_int__lit16 d l r => add_int__lit16 f h d l r
  | .sub_int__lit8 d l r => sub_int__lit8 f h d l r
  | .sub_int__lit16 d l r => sub_int__lit16 f h d l r
  | .mul_int__lit8 d l r => mul_int__lit8 f h d l r
  | .mul_int__lit16 d l r => mul_int__lit16 f h d l r
  | .rem_int__lit8 d l r => rem_int__lit8 f h d l r
  | .rem_int__lit16 d l r => rem_int__lit16 f h d l r
  | .and_int__lit8 d l r => and_int__lit8 f h d l r
  | .and_int__lit16 d l r => and_int__lit16 f h d l r
  | .or_int__lit8 d l r => or_int__lit8 f h d l r
  | .or_int__lit16 d l r => or_int__lit16 f h d l r
  | .xor_int__lit8 d l r => xor_int__lit8 f h d l r
  | .xor_int__lit16 d l r => xor_int__lit16 f h d l r
  | .shl_int__lit8 d l r => shl_int__lit8 f h d l r
  | .shl_int__lit16 d l r => shl_int__lit16 f h d l r
  | .shr_int__lit8 d l r => shr_int__lit8 f h d l r
  | .shr_int__lit16 d l r => shr_int__lit16 f h d l r
  | .rsub_int__lit8 d l r => rsub_int__lit8 f h d l r
  | .div_int d l r => div_int f h d l r
  | .div_float d l r => div_float f h d l r
  | .add_int d l r => add_int f h d l r
  | .sub_int d l r => sub_int f h d l r
  | .rem_int d l r => rem_int f h d l r
  | .mul_int d l r => mul_int f h d l r
  | .or_int d l r => or_int f h d l r
  | .and_int d l r => and_int f h d l r
  | .xor_int d l r => xor_int f h d l r
  | .shl_int d l r => shl_int f h d l r
  | .shr_int d l r => shr_int f h d l r

/-- Is the instruction a `move-exception` (the error-slot reader)? -/
def Instr.is_move_exception : Instr → Bool
  | .move_exception _ => true
  | _ => false

/-- Is the instruction a `throw` (the error-slot writer)? -/
def Instr.is_throw : Instr → Bool
  | .throw _ => true
  | _ => false

/-! ### The opcode registry

`Executor.__init__` derives the canonical mnemonic from the handler
function's name (`__name__.replace('__','/').replace('_','-')`), stores the
executor under it in the module-level `__executors__` dict, and also under
every name in `map_to`.  `OpcodeExecutor(map_to=[])` is a decorator factory
whose inner `wrapper` constructs the `Executor`; the bare `@OpcodeExecutor`
on `sparse_switch` instead applies the factory itself to the function,
which only returns `wrapper` — no `Executor` is constructed and nothing is
registered. -/

/-- `name.replace('__','/').replace('_','-')` fused into one scan: a pair
of underscores becomes `/`, a remaining single underscore `-`. -/
def opcodeChars : List Char → List Char
  | [] => []
  | '_' :: '_' :: rest => '/' :: opcodeChars rest
  | '_' :: rest => '-' :: opcodeChars rest
  | c :: rest => c :: opcodeChars rest

def opcodeName (fname : String) : String := ⟨opcodeChars fname.data⟩

/-- How a handler function in `executor.py` is decorated: `some aliases`
for a call `@OpcodeExecutor(map_to=…)` (registers canonical name and
aliases), `none` for the bare `@OpcodeExecutor` (registers nothing).

The alias strings are the opcode-constant values imported from
`smali.opcode`.  Modelled from the spec (the module is not under `src/`):
each constant denotes the Dalvik mnemonic spelled by its name (lowercase,
`-` between words, `/` before a width or kind suffix). -/
def registrationEvents : List (String × Option (List String)) :=
  [ ("nop", some []),
    ("return_void", some ["return-void-barrier", "return-void-no-barrier"]),
    ("return_object", some ["return", "return-wide"]),
    ("goto", some ["goto/16", "goto/32"]),
    ("invoke", some ["invoke-direct", "invoke-static", "invoke-virtual"]),
    ("throw", some []),
    ("int_to_long", some []),
    ("int_to_int", some ["long-to-int"]),
    ("int_to_char", some ["int-to-short"]),
    ("int_to_byte", some []),
    ("int_to_float", some ["int-to-double"]),
    ("sput_object", some ["sput", "sput-boolean", "sput-short", "sput-char",
      "sput-byte", "sput-object-volatile", "sput-wide", "sput-wide-volatile"]),
    ("sget_object", some ["sget", "sget-boolean", "sget-byte",
      "sget-object-volatile", "sget-volatile", "sget-wide",
      "sget-wide-volatile", "sget-char"]),
    ("iget_object", some ["iget-boolean", "iget-byte", "iget-char",
      "iget-short", "iget-volatile", "iget-wide", "iget",
      "iget-object-volatile"]),
    ("iput_object", some ["iput", "iput-boolean", "iput-byte", "iput-char",
      "iput-short", "iput-object-volatile", "iput-volatile", "iput-wide"]),
    ("const", some ["const-string", "const-string/jumbo", "const/16",
      "const/4", "const-wide", "const-wide/high16", "const-wide/32"]),
    ("const_class", some ["const-class"]),
    ("move_result", some ["move-result-object"]),
    ("move", some []),
    ("move_exception", some []),
    ("new_instance", some []),
    ("new_array", some []),
    ("packed_switch", some []),
    ("sparse_switch", none),
    ("if_le", some []),
    ("if_ge", some []),
    ("if_gez", some []),
    ("if_ltz", some []),
    ("if_gt", some []),
    ("if_lt", some []),
    ("if_gtz", some []),
    ("if_ne", some []),
    ("if_lez", some []),
    ("if_nez", some []),
    ("if_eqz", some []),
    ("array_length", some []),
    ("fill_array_data", some []),
    ("aget", some ["aget-boolean", "aget-byte", "aget-char", "aget-object",
      "aget-short", "aget-wide"]),
    ("aput", some ["aput-boolean", "aput-byte", "aput-char", "aput-object",
      "aput-short", "aput-wide"]),
    ("neg_int", some ["neg-double", "neg-float", "neg-long"]),
    ("or_int__2addr", some ["or-long/2addr"]),
    ("and_int__2addr", some ["and-long/2addr"]),
    ("sub_int__2addr", some ["sub-double/2addr", "sub-float/2addr",
      "sub-long/2addr"]),
    ("xor_int__2addr", some ["xor-long/2addr"]),
    ("add_int__2addr", some ["add-double/2addr", "add-float/2addr",
      "add-long/2addr"]),
    ("div_int__2addr", some ["div-long/2addr"]),
    ("div_float__2addr", some ["div-double/2addr"]),
    ("shl_int__2addr", some ["shl-long/2addr"]),
    ("shr_int__2addr", some ["shr-long/2addr", "ushr-int/2addr",
      "ushr-long/2addr"]),
    ("rem_int__2addr", some ["rem-double/2addr", "rem-float/2addr",
      "rem-long/2addr"]),
    ("mul_int__2addr", some ["mul-double/2addr", "mul-float/2addr",
      "mul-long/2addr"]),
    ("div_int__lit8", some []),
    ("div_int__lit16", some []),
    ("add_int__lit8", some []),
    ("add_int__lit16", some []),
    ("sub_int__lit8", some []),
    ("sub_int__lit16", some []),
    ("mul_int__lit8", some []),
    ("mul_int__lit16", some []),
    ("rem_int__lit8", some []),
    ("rem_int__lit16", some []),
    ("and_int__lit8", some []),
    ("and_int__lit16", some []),
    ("or_int__lit8", some []),
    ("or_int__lit16", some []),
    ("xor_int__lit8", some []),
    ("xor_int__lit16", some []),
    ("shl_int__lit8", some []),
    ("shl_int__lit16", some []),
    ("shr_int__lit8", some []),
    ("shr_int__lit16", some []),
    ("rsub_int__lit8", some []),
    ("div_int", some []),
    ("div_float", some ["div-double"]),
    ("add_int", some ["add-double", "add-float", "add-long"]),
    ("sub_int", some ["sub-double", "sub-float", "sub-long"]),
    ("rem_int", some ["rem-double", "rem-float", "rem-long"]),
    ("mul_int", some ["mul-double", "mul-float", "mul-long"]),
    ("or_int", some ["or-long"]),
    ("and_int", some ["and-long"]),
    ("xor_int", some ["xor-long"]),
    ("shl_int", some ["shl-long"]),
    ("shr_int", some ["shr-long", "ushr-long", "ushr-int"]) ]

/-- One decorator evaluation at module import: a called decorator binds the
executor (identified here by its handler-function name) under its canonical
mnemonic and every alias, overwriting earlier entries dict-style; a bare
decoration registers nothing. -/
def registerEvent (m : List (String × String)) :
    String × Option (List String) → List (String × String)
  | (_, none) => m
  | (fname, some aliases) =>
    aliases.foldl (fun acc a => setAssoc acc a fname)
      (setAssoc m (opcodeName fname) fname)

/-- The module-level `__executors__` dict after import. -/
def __executors__ : List (String × String) :=
  registrationEvents.foldl registerEvent []

/-- `executor(name)`: the lookup entry point; an unknown mnemonic raises
`KeyError` (the unknown-opcode fault). -/
def executor (name : String) : Except EErr String :=
  match __executors__.lookup name with
  | some e => .ok e
  | none => .error ⟨"KeyError", .str name⟩

/-! ### The shared-executor-state mechanism

`Executor.__call__` stores its frame argument into the shared mutable
field `self.frame` before running the action, and the `invoke` action
finishes with `self.frame.method_return = self.frame.vm.call(...)`: the
external call runs first (and may re-enter dispatch on the same module-
level `Executor` instance, overwriting `self.frame`), and only then is
`self.frame` read to choose the object whose `method_return` is assigned.
This model keeps just the state this mechanism touches: the shared field,
and each frame's `method_return` slot in a frame store. -/

/-- The shared mutable fields of a module-level `Executor` instance. -/
structure ExecShared where
  frame : Nat
deriving DecidableEq

/-- The `method_return` slots of the live frames, indexed by frame id. -/
abbrev FrameStore := List Int

/-- `Executor.__call__`: `self.frame = frame`. -/
def executorEnter (self : ExecShared) (fid : Nat) : ExecShared :=
  { self with frame := fid }

/-- The tail of the `invoke` action: run the external call (which receives
the executor state and may re-enter dispatch, mutating it), then assign the
result to `self.frame.method_return` — reading `self.frame` as it is AFTER
the call. -/
def invokeTail (vmCall : ExecShared × FrameStore → ExecShared × FrameStore × Int)
    (self : ExecShared) (store : FrameStore) : ExecShared × FrameStore :=
  let r := vmCall (self, store)
  (r.1, r.2.1.set r.1.frame r.2.2)

/-- A full dispatch of `invoke` on frame `fid`: `__call__` stores the frame
into the shared field, then the action runs. -/
def dispatchInvoke
    (vmCall : ExecShared × FrameStore → ExecShared × FrameStore × Int)
    (self : ExecShared) (store : FrameStore) (fid : Nat) :
    ExecShared × FrameStore :=
  invokeTail vmCall (executorEnter self fid) store

/-- An external call that completes without re-entering the interpreter,
returning `v`. -/
def isolatedCall (v : Int) :
    ExecShared × FrameStore → ExecShared × FrameStore × Int :=
  fun p => (p.1, p.2, v)

/-- An external call that re-enters the same executor: it dispatches a
nested `invoke` on frame `fid2` (whose own call is isolated and returns
`v2`), then returns `v`. -/
def reentrantCall (fid2 : Nat) (v2 v : Int) :
    ExecShared × FrameStore → ExecShared × FrameStore × Int :=
  fun p =>
    let q := dispatchInvoke (isolatedCall v2) p.1 p.2 fid2
    (q.1, q.2, v)

/-! ### Error-slot bookkeeping

Tools for stating that a handler neither reads nor forges the frame's
error slot: `errMap e` re-imposes the incoming error slot `e` on a
handler result, `eraseE` forgets the outgoing error slot. -/

def errMap (e : Value) : StepR → StepR :=
  Except.map (fun p => ({ p.1 with error := e }, p.2))

def eraseE : StepR → StepR :=
  Except.map (fun p => ({ p.1 with error := .null }, p.2))

/-! ### Concrete fixtures for the closed instances below -/

def parentCls : SmaliClass :=
  ⟨"LParent;", "Ljava/lang/Object;", ["foo()V"], ["sf"]⟩

/-- The receiver's own class declares the SAME signature as its
superclass. -/
def childCls : SmaliClass := ⟨"LChild;", "LParent;", ["foo()V"], []⟩

def userCls : SmaliClass := ⟨"LUser;", "Ljava/lang/Object;", [], []⟩

/-- A class table that also binds the descriptor `SB`, so that resolving
`SB` through it would succeed if the handler consulted it. -/
def vmW : VM :=
  ⟨[("LParent;", parentCls), ("LUser;", userCls),
    ("SB", ⟨"SB", "Ljava/lang/Object;", [], []⟩)],
   fun t _ args => .str (t.owner ++ "::" ++ t.sig ++ "#" ++ toString args.length)⟩

def hpW : Heap := ⟨[[.int 10, .int 20, .int 30]], [⟨childCls, [], true⟩], []⟩

def frW : Frame :=
  ⟨[("p0", .obj 0), ("a1", .int 7), ("v0", .arr 0), ("s1", .int 5),
    ("s2", .int 2), ("l", .int 3), ("d", .null), ("x", .int 1),
    ("y", .int 2)],
   0, none, [("target", 4), ("Lb", 9)],
   [("D", ("1", ["La", "Lb"]))], [("S", [("8", "missing"), ("3", "target")])],
   [("AD", 0)], .null, .null, .null, false⟩

/-- Array register `v0` (name length 2) holds the length-3 array, the
index register holds 3 — the claimed append position. -/
def frArr3 : Frame :=
  ⟨[("v0", .arr 0), ("v1", .int 3), ("v2", .int 99), ("d", .null)],
   0, none, [], [], [], [], .null, .null, .null, false⟩

/-- As `frArr3` but with index 2: a claimed in-bounds overwrite/read. -/
def frArr2 : Frame :=
  ⟨[("v0", .arr 0), ("v1", .int 2), ("v2", .int 99), ("d", .null)],
   0, none, [], [], [], [], .null, .null, .null, false⟩

/-- As `frArr3` but with index 1: in bounds under both readings. -/
def frArr1 : Frame :=
  ⟨[("v0", .arr 0), ("v1", .int 1), ("v2", .int 99), ("d", .null)],
   0, none, [], [], [], [], .null, .null, .null, false⟩

def hpArr : Heap := ⟨[[.int 10, .int 20, .int 30]], [], []⟩

/-! ### Frame projections are oblivious to the error slot -/

theorem getReg_errSet (f : Frame) (e : Value) :
    Frame.getReg { f with error := e } = f.getReg := rfl

theorem errSet_switch_data (f : Frame) (e : Value) :
    ({ f with error := e } : Frame).switch_data = f.switch_data := rfl

theorem errSet_sparse_data (f : Frame) (e : Value) :
    ({ f with error := e } : Frame).sparse_data = f.sparse_data := rfl

theorem errSet_array_data (f : Frame) (e : Value) :
    ({ f with error := e } : Frame).array_data = f.array_data := rfl

theorem errSet_labels (f : Frame) (e : Value) :
    ({ f with error := e } : Frame).labels = f.labels := rfl

/-- Threading an unread error slot through a bind. -/
theorem bind_errMap {α : Type} (e : Value) (m : Except EErr α)
    (k k' : α → StepR) (H : ∀ a, k a = errMap e (k' a)) :
    (m >>= k) = errMap e (m >>= k') := by
  cases m with
  | error err => rfl
  | ok a => simpa [Bind.bind, Except.bind] using H a

theorem eraseE_of_errMap {x y : StepR} (e : Value) (H : x = errMap e y) :
    eraseE x = eraseE y := by
  subst H
  cases y with
  | error err => rfl
  | ok p => rfl

/-! Per-handler lemmas: each handler other than `move-exception` ignores
the incoming error slot (and each other than `throw` carries it through
unchanged). -/

theorem nop_errMap (f : Frame) (h : Heap) (e : Value) :
    nop { f with error := e } h = errMap e (nop f h) := rfl

theorem return_void_errMap (f : Frame) (h : Heap) (e : Value) :
    return_void { f with error := e } h = errMap e (return_void f h) := rfl

theorem return_object_errMap (f : Frame) (h : Heap) (e : Value) (r : String) :
    return_object { f with error := e } h r = errMap e (return_object f h r) :=
  bind_errMap e _ _ _ (fun _ => rfl)

theorem gotoA_errMap (f : Frame) (e : Value) (l : String) :
    gotoA { f with error := e } l =
      (gotoA f l).map (fun g => { g with error := e }) := by
  unfold gotoA
  simp only [errSet_labels]
  cases f.labels.lookup l <;> rfl

theorem goto_errMap (f : Frame) (h : Heap) (e : Value) (l : String) :
    goto { f with error := e } h l = errMap e (goto f h l) := by
  unfold goto
  rw [gotoA_errMap]
  cases gotoA f l <;> rfl

theorem throw_err_indep (f : Frame) (h : Heap) (e : Value) (r : String) :
    throw { f with error := e } h r = throw f h r :=
  bind_errMap' (fun _ => rfl)
where
  bind_errMap' {m : Except EErr Value} {k k' : Value → StepR}
      (H : ∀ a, k a = k' a) : (m >>= k) = (m >>= k') := by
    cases m with
    | error err => rfl
    | ok a => simpa [Bind.bind, Except.bind] using H a

theorem int_to_long_errMap (f : Frame) (h : Heap) (e : Value) (d s : String) :
    int_to_long { f with error := e } h d s = errMap e (int_to_long f h d s) :=
  bind_errMap e _ _ _ (fun _ => bind_errMap e _ _ _ (fun _ => rfl))

theorem int_to_int_errMap (f : Frame) (h : Heap) (e : Value) (d s : String) :
    int_to_int { f with error := e } h d s = errMap e (int_to_int f h d s) :=
  bind_errMap e _ _ _ (fun _ => bind_errMap e _ _ _ (fun _ => rfl))

theorem int_to_char_errMap (f : Frame) (h : Heap) (e : Value) (d s : String) :
    int_to_char { f with error := e } h d s = errMap e (int_to_char f h d s) :=
  bind_errMap e _ _ _ (fun _ => bind_errMap e _ _ _ (fun _ => rfl))

theorem int_to_byte_errMap (f : Frame) (h : Heap) (e : Value) (d s : String) :
    int_to_byte { f with error := e } h d s = errMap e (int_to_byte f h d s) :=
  bind_errMap e _ _ _ (fun _ => rfl)

theorem int_to_float_errMap (f : Frame) (h : Heap) (e : Value) (d s : String) :
    int_to_float { f with error := e } h d s =
      errMap e (int_to_float f h d s) := by
  refine bind_errMap e _ _ _ (fun v => ?_)
  cases hv : v.toRat <;> rfl

theorem const_errMap (f : Frame) (h : Heap) (e : Value) (r v : String) :
    const { f with error := e } h r v = errMap e (const f h r v) := rfl

theorem const_class_errMap (vm : VM) (f : Frame) (h : Heap) (e : Value)
    (r n : String) :
    const_class vm { f with error := e } h r n =
      errMap e (const_class vm f h r n) :=
  bind_errMap e _ _ _ (fun _ => rfl)

theorem move_result_errMap (f : Frame) (h : Heap) (e : Value) (r : String) :
    move_result { f with error := e } h r = errMap e (move_result f h r) := rfl

theorem move_errMap (f : Frame) (h : Heap) (e : Value) (d s : String) :
    move { f with error := e } h d s = errMap e (move f h d s) :=
  bind_errMap e _ _ _ (fun _ => rfl)

theorem unop_errMap (op : Value → Except EErr Value) (f : Frame) (h : Heap)
    (e : Value) (d s : String) :
    unop op { f with error := e } h d s = errMap e (unop op f h d s) :=
  bind_errMap e _ _ _ (fun _ => bind_errMap e _ _ _ (fun _ => rfl))

theorem binop2addr_errMap (op : Value → Value → Except EErr Value) (f : Frame)
    (h : Heap) (e : Value) (d s : String) :
    binop2addr op { f with error := e } h d s =
      errMap e (binop2addr op f h d s) :=
  bind_errMap e _ _ _ (fun _ => bind_errMap e _ _ _ (fun _ =>
    bind_errMap e _ _ _ (fun _ => rfl)))

theorem binop3_errMap (op : Value → Value → Except EErr Value) (f : Frame)
    (h : Heap) (e : Value) (d l r : String) :
    binop3 op { f with error := e } h d l r =
      errMap e (binop3 op f h d l r) :=
  bind_errMap e _ _ _ (fun _ => bind_errMap e _ _ _ (fun _ =>
    bind_errMap e _ _ _ (fun _ => rfl)))

theorem litop_errMap (op : Value → Value → Except EErr Value) (mask : Int)
    (f : Frame) (h : Heap) (e : Value) (d l r : String) :
    litop op mask { f with error := e } h d l r =
      errMap e (litop op mask f h d l r) :=
  bind_errMap e _ _ _ (fun _ => bind_errMap e _ _ _ (fun _ =>
    bind_errMap e _ _ _ (fun _ => rfl)))

theorem rsub_int__lit8_errMap (f : Frame) (h : Heap) (e : Value)
    (d l r : String) :
    rsub_int__lit8 { f with error := e } h d l r =
      errMap e (rsub_int__lit8 f h d l r) :=
  bind_errMap e _ _ _ (fun _ => bind_errMap e _ _ _ (fun _ =>
    bind_errMap e _ _ _ (fun _ => rfl)))

theorem if_cmp_errMap (cmp : Value → Value → Except EErr Bool) (f : Frame)
    (h : Heap) (e : Value) (a b l : String) :
    if_cmp cmp { f with error := e } h a b l =
      errMap e (if_cmp cmp f h a b l) := by
  refine bind_errMap e _ _ _ (fun x => ?_)
  refine bind_errMap e _ _ _ (fun y => ?_)
  refine bind_errMap e _ _ _ (fun c => ?_)
  cases c with
  | true => exact goto_errMap f h e l
  | false => rfl

theorem if_zero_errMap (cmp : Value → Value → Except EErr Bool) (f : Frame)
    (h : Heap) (e : Value) (a l : String) :
    if_zero cmp { f with error := e } h a l =
      errMap e (if_zero cmp f h a l) := by
  refine bind_errMap e _ _ _ (fun x => ?_)
  refine bind_errMap e _ _ _ (fun c => ?_)
  cases c with
  | true => exact goto_errMap f h e l
  | false => rfl

theorem if_zero_eq_errMap (eq : Bool) (f : Frame) (h : Heap) (e : Value)
    (a l : String) :
    if_zero_eq eq { f with error := e } h a l =
      errMap e (if_zero_eq eq f h a l) := by
  refine bind_errMap e _ _ _ (fun x => ?_)
  split
  · exact goto_errMap f h e l
  · rfl

theorem if_ne_errMap (f : Frame) (h : Heap) (e : Value) (a b l : String) :
    if_ne { f with error := e } h a b l = errMap e (if_ne f h a b l) := by
  refine bind_errMap e _ _ _ (fun x => ?_)
  refine bind_errMap e _ _ _ (fun y => ?_)
  split
  · rfl
  · exact goto_errMap f h e l

theorem sput_object_errMap (vm : VM) (f : Frame) (h : Heap) (e : Value)
    (r d : String) :
    sput_object vm { f with error := e } h r d =
      errMap e (sput_object vm f h r d) := by
  refine bind_errMap e _ _ _ (fun v => ?_)
  refine bind_errMap e _ _ _ (fun p => ?_)
  refine bind_errMap e _ _ _ (fun q => ?_)
  refine bind_errMap e _ _ _ (fun c => ?_)
  split
  · rfl
  · rfl

theorem sget_object_errMap (vm : VM) (f : Frame) (h : Heap) (e : Value)
    (r d : String) :
    sget_object vm { f with error := e } h r d =
      errMap e (sget_object vm f h r d) := by
  refine bind_errMap e _ _ _ (fun p => ?_)
  refine bind_errMap e _ _ _ (fun q => ?_)
  refine bind_errMap e _ _ _ (fun c => ?_)
  split
  · rfl
  · rfl

theorem iget_object_errMap (f : Frame) (h : Heap) (e : Value)
    (d s i : String) :
    iget_object { f with error := e } h d s i =
      errMap e (iget_object f h d s i) := by
  refine bind_errMap e _ _ _ (fun v => ?_)
  refine bind_errMap e _ _ _ (fun oref => ?_)
  refine bind_errMap e _ _ _ (fun p => ?_)
  refine bind_errMap e _ _ _ (fun q => ?_)
  refine bind_errMap e _ _ _ (fun orec => ?_)
  cases orec.fields.lookup q.1 <;> rfl

theorem iput_object_errMap (f : Frame) (h : Heap) (e : Value)
    (s o i : String) :
    iput_object { f with error := e } h s o i =
      errMap e (iput_object f h s o i) := by
  refine bind_errMap e _ _ _ (fun v => ?_)
  refine bind_errMap e _ _ _ (fun oref => ?_)
  refine bind_errMap e _ _ _ (fun p => ?_)
  refine bind_errMap e _ _ _ (fun q => ?_)
  refine bind_errMap e _ _ _ (fun orec => ?_)
  refine bind_errMap e _ _ _ (fun sv => ?_)
  rfl

theorem new_instance_errMap (vm : VM) (f : Frame) (h : Heap) (e : Value)
    (r d : String) :
    new_instance vm { f with error := e } h r d =
      errMap e (new_instance vm f h r d) := by
  unfold new_instance
  split
  · rfl
  split
  · rfl
  split
  · rfl
  split
  · rfl
  split
  · rfl
  exact bind_errMap e _ _ _ (fun c => rfl)

theorem new_array_errMap (f : Frame) (h : Heap) (e : Value)
    (d c t : String) :
    new_array { f with error := e } h d c t =
      errMap e (new_array f h d c t) := by
  refine bind_errMap e _ _ _ (fun cnt => ?_)
  cases cnt.toIntNum <;> rfl

theorem packed_switch_errMap (f : Frame) (h : Heap) (e : Value)
    (r d : String) :
    packed_switch { f with error := e } h r d =
      errMap e (packed_switch f h r d) := by
  unfold packed_switch
  simp only [errSet_switch_data, getReg_errSet]
  cases f.switch_data.lookup d with
  | none => rfl
  | some sc =>
    cases sc with
    | mk sv cs =>
      refine bind_errMap e _ _ _ (fun v => ?_)
      refine bind_errMap e _ _ _ (fun idxv => ?_)
      split
      · split
        · rfl
        · exact goto_errMap f h e _
      all_goals rfl

theorem sparse_scan_errMap (f : Frame) (h : Heap) (e : Value) (v : Value)
    (branches : List (String × String)) :
    sparse_scan { f with error := e } h v branches =
      errMap e (sparse_scan f h v branches) := by
  induction branches with
  | nil => rfl
  | cons b rest ih =>
    cases b with
    | mk k lbl =>
      unfold sparse_scan
      split
      · exact goto_errMap f h e lbl
      · exact ih

theorem sparse_switch_errMap (f : Frame) (h : Heap) (e : Value)
    (r l : String) :
    sparse_switch { f with error := e } h r l =
      errMap e (sparse_switch f h r l) := by
  unfold sparse_switch
  simp only [errSet_sparse_data, getReg_errSet]
  cases f.sparse_data.lookup l with
  | none => rfl
  | some branches =>
    refine bind_errMap e _ _ _ (fun v => ?_)
    exact sparse_scan_errMap f h e v branches

theorem array_length_errMap (f : Frame) (h : Heap) (e : Value)
    (d a : String) :
    array_length { f with error := e } h d a =
      errMap e (array_length f h d a) := by
  refine bind_errMap e _ _ _ (fun v => ?_)
  refine bind_errMap e _ _ _ (fun n => ?_)
  rfl

theorem fill_array_data_errMap (f : Frame) (h : Heap) (e : Value)
    (d l : String) :
    fill_array_data { f with error := e } h d l =
      errMap e (fill_array_data f h d l) := by
  unfold fill_array_data
  simp only [errSet_array_data]
  cases f.array_data.lookup l <;> rfl

theorem aget_errMap (f : Frame) (h : Heap) (e : Value) (d a i : String) :
    aget { f with error := e } h d a i = errMap e (aget f h d a i) := by
  refine bind_errMap e _ _ _ (fun iv => ?_)
  refine bind_errMap e _ _ _ (fun av => ?_)
  split
  · rfl
  · split
    · rfl
    · split
      · refine bind_errMap e _ _ _ (fun data => ?_)
        split <;> rfl
      · rfl

theorem aput_errMap (f : Frame) (h : Heap) (e : Value) (s a i : String) :
    aput { f with error := e } h s a i = errMap e (aput f h s a i) := by
  refine bind_errMap e _ _ _ (fun iv => ?_)
  refine bind_errMap e _ _ _ (fun av => ?_)
  split
  · rfl
  · split
    · rfl
    · split
      · refine bind_errMap e _ _ _ (fun data => ?_)
        refine bind_errMap e _ _ _ (fun v => ?_)
        split
        · rfl
        · split <;> rfl
      · rfl

theorem invoke_errMap (vm : VM) (f : Frame) (h : Heap) (e : Value)
    (t : String) (a : List String) (o m : String) :
    invoke vm { f with error := e } h t a o m =
      errMap e (invoke vm f h t a o m) := by
  unfold invoke
  split
  · split
    · -- owner = Ljava/lang/Class;
      refine bind_errMap e _ _ _ (fun a0 => ?_)
      simp only [getReg_errSet]
      refine bind_errMap e _ _ _ (fun v => ?_)
      split
      · cases v <;> rfl
      · rfl
    split
    · -- owner = Ljava/lang/Object;
      split
      · refine bind_errMap e _ _ _ (fun a0 => ?_)
        simp only [getReg_errSet]
        refine bind_errMap e _ _ _ (fun x => ?_)
        refine bind_errMap e _ _ _ (fun r => ?_)
        rfl
      · rfl
    · -- ordinary owner
      simp only [getReg_errSet]
      refine bind_errMap e _ _ _ (fun values => ?_)
      split
      · -- non-static call
        split
        · rfl
        · refine bind_errMap e _ _ _ (fun instv => ?_)
          refine bind_errMap e _ _ _ (fun oref => ?_)
          refine bind_errMap e _ _ _ (fun orec => ?_)
          split
          · refine bind_errMap e _ _ _ (fun vco => ?_)
            split
            · refine bind_errMap e _ _ _ (fun y2 => ?_)
              refine bind_errMap e _ _ _ (fun tg => ?_)
              rfl
            · refine bind_errMap e _ _ _ (fun y2 => ?_)
              refine bind_errMap e _ _ _ (fun tg => ?_)
              rfl
          · refine bind_errMap e _ _ _ (fun vco => ?_)
            split
            · refine bind_errMap e _ _ _ (fun y2 => ?_)
              refine bind_errMap e _ _ _ (fun tg => ?_)
              rfl
            · refine bind_errMap e _ _ _ (fun y2 => ?_)
              refine bind_errMap e _ _ _ (fun tg => ?_)
              rfl
      · refine bind_errMap e _ _ _ (fun vmc => ?_)
        refine bind_errMap e _ _ _ (fun tg => ?_)
        rfl
  · rfl

/-- Every handler except `move-exception` is oblivious to the incoming
error slot: its result, with the outgoing error slot forgotten, is the
same whatever error value the frame carried. -/
theorem step_eraseE (i : Instr) (hm : i.is_move_exception = false)
    (vm : VM) (f : Frame) (h : Heap) (e : Value) :
    eraseE (step vm { f with error := e } h i) = eraseE (step vm f h i) := by
  cases i
  case move_exception d => simp [Instr.is_move_exception] at hm
  case throw r =>
    simp only [step]
    rw [throw_err_indep]
  all_goals
    simp only [step, if_le, if_ge, if_gez, if_ltz, if_gt, if_lt, if_gtz,
      if_lez, if_nez, if_eqz, neg_int, or_int__2addr, and_int__2addr,
      sub_int__2addr, xor_int__2addr, add_int__2addr, div_int__2addr,
      div_float__2addr, shl_int__2addr, shr_int__2addr, rem_int__2addr,
      mul_int__2addr, div_int__lit8, div_int__lit16, add_int__lit8,
      add_int__lit16, sub_int__lit8, sub_int__lit16, mul_int__lit8,
      mul_int__lit16, rem_int__lit8, rem_int__lit16, and_int__lit8,
      and_int__lit16, or_int__lit8, or_int__lit16, xor_int__lit8,
      xor_int__lit16, shl_int__lit8, shl_int__lit16, shr_int__lit8,
      shr_int__lit16, div_int, div_float, add_int, sub_int, rem_int,
      mul_int, or_int, and_int, xor_int, shl_int, shr_int]
  all_goals refine eraseE_of_errMap e ?_
  all_goals
    first
    | apply nop_errMap
    | apply return_void_errMap
    | apply return_object_errMap
    | apply goto_errMap
    | apply invoke_errMap
    | apply int_to_long_errMap
    | apply int_to_int_errMap
    | apply int_to_char_errMap
    | apply int_to_byte_errMap
    | apply int_to_float_errMap
    | apply sput_object_errMap
    | apply sget_object_errMap
    | apply iget_object_errMap
    | apply iput_object_errMap
    | apply const_errMap
    | apply const_class_errMap
    | apply move_result_errMap
    | apply move_errMap
    | apply new_instance_errMap
    | apply new_array_errMap
    | apply packed_switch_errMap
    | apply sparse_switch_errMap
    | apply if_cmp_errMap
    | apply if_zero_errMap
    | apply if_zero_eq_errMap
    | apply if_ne_errMap
    | apply array_length_errMap
    | apply fill_array_data_errMap
    | apply aget_errMap
    | apply aput_errMap
    | apply unop_errMap
    | apply binop2addr_errMap
    | apply binop3_errMap
    | apply litop_errMap
    | apply rsub_int__lit8_errMap

/-! ### Claim theorems -/

/-- C10: looking up the mnemonic `sparse-switch` in the opcode registry
always fails with the unknown-opcode fault (`KeyError`): the handler body
exists, but its bare `@OpcodeExecutor` decoration applies the decorator
factory to the function itself, so no `Executor` is constructed and
nothing is registered under `sparse-switch`. -/
theorem sparse_switch_lookup_fails :
    __executors__.lookup "sparse-switch" = none ∧
    executor "sparse-switch" = .error ⟨"KeyError", .str "sparse-switch"⟩ := by
  decide

/-- C2 (code bug): `aput` checks the index against `len(array)` where
`array` is the register-NAME string, not the array it holds.  With array
register `v0` (name length 2) holding a length-3 array: storing at index
3 — which the spec says appends — raises `IndexOutOfBoundsError`, and
storing at index 2 — which the spec says overwrites slot 2 — appends,
growing the array to length 4. -/
theorem aput_bounds_use_register_name :
    aput frArr3 hpArr "v2" "v0" "v1" =
      .error ⟨"IndexOutOfBoundsError", .int 3⟩ ∧
    aput frArr2 hpArr "v2" "v0" "v1" =
      .ok (frArr2, ⟨[[.int 10, .int 20, .int 30, .int 99]], [], []⟩) := by
  decide

/-- C3 (code bug): `aget` likewise bounds the index by the register-name
length: with register `v0` (name length 2) holding a length-3 array,
reading index 2 — in bounds per the spec — raises `IndexOutOfBoundsError`,
while index 1 still reads element 1. -/
theorem aget_bounds_use_register_name :
    aget frArr2 hpArr "d" "v0" "v1" =
      .error ⟨"IndexOutOfBoundsError", .int 2⟩ ∧
    aget frArr1 hpArr "d" "v0" "v1" =
      .ok (frArr1.setReg "d" (.int 20), hpArr) := by
  decide

/-- C1 (counterexample): handlers do retain frame state in the shared
mutable `Executor.frame` field.  Dispatching `invoke` on frame 0 while its
external call re-enters the same executor on frame 1 stores the outer
result 99 into frame 1 and leaves frame 0's `method_return` untouched;
the isolated dispatch with the same explicit parameters stores 99 into
frame 0.  The interleaved dispatch is NOT equivalent to the isolated
one. -/
theorem shared_executor_state_counterexample :
    dispatchInvoke (reentrantCall 1 7 99) ⟨5⟩ [0, 0] 0 = (⟨1⟩, [0, 99]) ∧
    dispatchInvoke (isolatedCall 99) ⟨5⟩ [0, 0] 0 = (⟨0⟩, [99, 0]) ∧
    (dispatchInvoke (reentrantCall 1 7 99) ⟨5⟩ [0, 0] 0).2.get? 0 ≠
      (dispatchInvoke (isolatedCall 99) ⟨5⟩ [0, 0] 0).2.get? 0 := by
  decide

/-- C1 (amended): each dispatch stores its frame into the executor's
shared mutable `frame` field, and the handler's effect depends on that
field at the time of each access; only a dispatch whose external call
does not re-enter the executor (leaving the shared state where
`__call__` put it) behaves like an isolated dispatch and stores its
result into the frame passed as the explicit parameter. -/
theorem dispatchInvoke_without_reentry
    (vmCall : ExecShared × FrameStore → ExecShared × FrameStore × Int)
    (self : ExecShared) (store : FrameStore) (fid : Nat)
    (hiso : (vmCall (executorEnter self fid, store)).1 =
      executorEnter self fid) :
    dispatchInvoke vmCall self store fid =
      ((vmCall (executorEnter self fid, store)).1,
       (vmCall (executorEnter self fid, store)).2.1.set fid
         (vmCall (executorEnter self fid, store)).2.2) := by
  simp only [dispatchInvoke, invokeTail, hiso]
  rfl

theorem dispatchInvoke_without_reentry_witness :
    (isolatedCall 99 (executorEnter ⟨5⟩ 0, ([0, 0] : FrameStore))).1 =
      executorEnter ⟨5⟩ 0 ∧
    dispatchInvoke (isolatedCall 99) ⟨5⟩ [0, 0] 0 =
      ((isolatedCall 99 (executorEnter ⟨5⟩ 0, [0, 0])).1,
       (isolatedCall 99 (executorEnter ⟨5⟩ 0, [0, 0])).2.1.set 0
         (isolatedCall 99 (executorEnter ⟨5⟩ 0, [0, 0])).2.2) :=
  ⟨rfl, dispatchInvoke_without_reentry (isolatedCall 99) ⟨5⟩ [0, 0] 0 rfl⟩

/-- C7: `throw` never raises — given the register's value it only stores
that value, as the `RuntimeError` payload, into the frame's error slot,
leaving registers, position and all other frame state unchanged; every
handler other than `move-exception` is oblivious to the error slot's
contents; and `move-exception` copies the error slot into its destination
register. -/
theorem throw_stores_only_move_exception_reads :
    (∀ (f : Frame) (h : Heap) (r : String) (v : Value),
      f.getReg r = .ok v →
      throw f h r = .ok ({ f with error := .err "RuntimeError" v }, h)) ∧
    (∀ (i : Instr), i.is_move_exception = false →
      ∀ (vm : VM) (f : Frame) (h : Heap) (e : Value),
        eraseE (step vm { f with error := e } h i) =
          eraseE (step vm f h i)) ∧
    (∀ (f : Frame) (h : Heap) (d : String),
      move_exception f h d = .ok (f.setReg d f.error, h)) := by
  refine ⟨?_, step_eraseE, fun f h d => rfl⟩
  intro f h r v hv
  unfold throw
  rw [hv]
  rfl

theorem throw_stores_only_move_exception_reads_witness :
    throw frW hpW "l" =
      .ok ({ frW with error := .err "RuntimeError" (.int 3) }, hpW) ∧
    eraseE (step vmW { frW with error := .err "E" .null } hpW
        (.const "d" "7")) =
      eraseE (step vmW frW hpW (.const "d" "7")) ∧
    move_exception frW hpW "d" = .ok (frW.setReg "d" frW.error, hpW) :=
  ⟨throw_stores_only_move_exception_reads.1 frW hpW "l" (.int 3) (by decide),
   throw_stores_only_move_exception_reads.2.1 (.const "d" "7") (by decide)
     vmW frW hpW (.err "E" .null),
   throw_stores_only_move_exception_reads.2.2 frW hpW "d"⟩

/-- Masking with `0xFF` always lands in the 8-bit unsigned range,
whatever the sign of the operand. -/
theorem intAnd_255_bound (n : Int) : 0 ≤ intAnd n 255 ∧ intAnd n 255 < 256 := by
  cases n with
  | ofNat m =>
    refine ⟨Int.ofNat_nonneg _, ?_⟩
    show ((m &&& 255 : Nat) : Int) < 256
    have hb : m &&& 255 ≤ 255 := Nat.and_le_right
    omega
  | negSucc m =>
    refine ⟨Int.ofNat_nonneg _, ?_⟩
    show ((255 - (255 &&& m) : Nat) : Int) < 256
    have hb : 255 - (255 &&& m) ≤ 255 := Nat.sub_le _ _
    omega

/-- C8: a lit8 operation parses the literal text and masks it to 8
unsigned bits before the operator is applied, whatever the literal's
written sign; `and/lit8` with literal text `"-1"` stores `left & 0xFF`
into the destination; `rsub/lit8` computes `masked_literal − left`
(reversed operand order), so literal `10` with `left = 3` yields `7`. -/
theorem lit8_parse_mask_semantics (f : Frame) (h : Heap) (d l t : String)
    (n lv : Int) (ht : SmaliValue t = .int n)
    (hl : f.getReg l = .ok (.int lv)) :
    (and_int__lit8 f h d l t =
       .ok (f.setReg d (.int (intAnd lv (intAnd n 255))), h)) ∧
    (0 ≤ intAnd n 255 ∧ intAnd n 255 < 256) ∧
    (t = "-1" → and_int__lit8 f h d l t =
       .ok (f.setReg d (.int (intAnd lv 255)), h)) ∧
    (rsub_int__lit8 f h d l t =
       .ok (f.setReg d (.int (intAnd n 255 - lv)), h)) := by
  have hand : and_int__lit8 f h d l t =
      .ok (f.setReg d (.int (intAnd lv (intAnd n 255))), h) := by
    unfold and_int__lit8 litop
    rw [hl, ht]
    rfl
  refine ⟨hand, intAnd_255_bound n, ?_, ?_⟩
  · intro ht1
    subst ht1
    have hn : Value.int (-1) = Value.int n := ht
    have hn1 : n = -1 := (Value.int.inj hn).symm
    subst hn1
    rw [hand]
    rfl
  · unfold rsub_int__lit8
    rw [ht, hl]
    rfl

theorem lit8_parse_mask_semantics_witness :
    SmaliValue "-1" = .int (-1) ∧
    frW.getReg "l" = .ok (.int 3) ∧
    and_int__lit8 frW hpW "d" "l" "-1" =
      .ok (frW.setReg "d" (.int 3), hpW) ∧
    rsub_int__lit8 frW hpW "d" "l" "10" =
      .ok (frW.setReg "d" (.int 7), hpW) := by
  refine ⟨by decide, by decide, ?_, ?_⟩
  · have := (lit8_parse_mask_semantics frW hpW "d" "l" "-1" (-1) 3
      (by decide) (by decide)).2.2.1 rfl
    rw [this]
    decide
  · have := (lit8_parse_mask_semantics frW hpW "d" "l" "10" 10 3
      (by decide) (by decide)).2.2.2
    rw [this]
    decide

/-- C6: packed-switch computes `index = value(register) − low`; an index
outside `[0, number of branches)` leaves the frame and heap entirely
unchanged (never a fault); an index in range jumps to `branches[index]`
with exactly the goto semantics (including its label fault). -/
theorem packed_switch_index_semantics (f : Frame) (h : Heap)
    (r d low : String) (cs : List String) (v lowv : Int)
    (hsd : f.switch_data.lookup d = some (low, cs))
    (hreg : f.getReg r = .ok (.int v))
    (hlow : SmaliValue low = .int lowv) :
    (v - lowv < 0 ∨ (cs.length : Int) ≤ v - lowv →
       packed_switch f h r d = .ok (f, h)) ∧
    (0 ≤ v - lowv → v - lowv < (cs.length : Int) →
       packed_switch f h r d = goto f h (cs.getD (v - lowv).toNat "")) := by
  have h1 : packed_switch f h r d = (do
      let value ← f.getReg r
      let idxv ← pySub value (SmaliValue low)
      match idxv with
      | Value.int idx =>
        if idx < 0 ∨ (cs.length : Int) ≤ idx then .ok (f, h)
        else goto f h (cs.getD idx.toNat "")
      | _ => .error (typeFault "list index")) := by
    unfold packed_switch
    rw [hsd]
  have hps : packed_switch f h r d =
      (if v - lowv < 0 ∨ (cs.length : Int) ≤ v - lowv then .ok (f, h)
       else goto f h (cs.getD (v - lowv).toNat "")) := by
    rw [h1, hreg, hlow]
    rfl
  constructor
  · intro hout
    rw [hps, if_pos hout]
  · intro h1 h2
    rw [hps, if_neg (by omega)]

theorem packed_switch_index_semantics_witness :
    packed_switch frW hpW "s1" "D" = .ok (frW, hpW) ∧
    packed_switch frW hpW "s2" "D" = goto frW hpW "Lb" ∧
    goto frW hpW "Lb" = .ok ({ frW with label := some "Lb", pos := 9 }, hpW) := by
  refine ⟨?_, ?_, by decide⟩
  · exact (packed_switch_index_semantics frW hpW "s1" "D" "1" ["La", "Lb"]
      5 1 (by decide) (by decide) (by decide)).1 (by decide)
  · have := (packed_switch_index_semantics frW hpW "s2" "D" "1" ["La", "Lb"]
      2 1 (by decide) (by decide) (by decide)).2 (by decide) (by decide)
    exact this

/-- C9 (counterexample): descriptor `"SB"` is none of the claim's listed
primitive/wrapper descriptors, so by the claim it should resolve through
the class table (which here does bind `"SB"`) and allocate a fresh
instance; the handler instead satisfies the substring test
`"SB" in "ISBJ"` and stores Integer 0 with the heap untouched. -/
theorem new_instance_substring_counterexample :
    new_instance vmW frW hpW "d" "SB" = .ok (frW.setReg "d" (.int 0), hpW) ∧
    (frW.setReg "d" (.int 0)).reg "d" = some (.int 0) := by
  decide

/-- C9 (amended): the listed primitive/wrapper descriptors produce their
default boxed values with no allocation; moreover — because the primitive
check is Python's substring `in` — ANY descriptor that is a contiguous
substring of `"ISBJ"` (e.g. `"SB"`) yields Integer 0, and any substring
of `"FD"` yields Float 0.0; only a descriptor matching none of the checks
resolves the class through the external table, allocates a fresh dynamic
instance with its zero-argument initializer run, and stores it, the new
reference lying one past the current heap so successive calls yield
distinct ObjectRefs. -/
theorem new_instance_defaults_and_allocation (vm : VM) (f : Frame)
    (h : Heap) (r d : String) :
    (pyInStr d "ISBJ" = true →
      new_instance vm f h r d = .ok (f.setReg r (.int 0), h)) ∧
    (pyInStr d "ISBJ" = false → pyInStr d "FD" = true →
      new_instance vm f h r d = .ok (f.setReg r (.float 0), h)) ∧
    (d = "Ljava/lang/String;" ∨ d = "C" ∨ d = "Ljava/lang/Character;" →
      new_instance vm f h r d = .ok (f.setReg r (.str ""), h)) ∧
    (d = "Ljava/lang/Integer;" ∨ d = "Ljava/lang/Byte;" ∨
        d = "Ljava/lang/Long" ∨ d = "Ljava/lang/Short;" →
      new_instance vm f h r d = .ok (f.setReg r (.int 0), h)) ∧
    (d = "Ljava/lang/Boolean" ∨ d = "Z" →
      new_instance vm f h r d = .ok (f.setReg r (.bool false), h)) ∧
    (∀ c : SmaliClass, pyInStr d "ISBJ" = false → pyInStr d "FD" = false →
      ¬(d = "Ljava/lang/String;" ∨ d = "C" ∨ d = "Ljava/lang/Character;") →
      ¬(d = "Ljava/lang/Integer;" ∨ d = "Ljava/lang/Byte;" ∨
          d = "Ljava/lang/Long" ∨ d = "Ljava/lang/Short;") →
      ¬(d = "Ljava/lang/Boolean" ∨ d = "Z") →
      vm.get_class d = some c →
      new_instance vm f h r d =
        .ok (f.setReg r (.obj h.objects.length),
          { h with objects := h.objects ++ [SmaliObject.mk c [] true] }) ∧
      ({ h with objects := h.objects ++ [SmaliObject.mk c [] true] } :
          Heap).objects.length = h.objects.length + 1) := by
  refine ⟨?_, ?_, ?_, ?_, ?_, ?_⟩
  · intro h1
    unfold new_instance
    rw [if_pos h1]
  · intro h1 h2
    unfold new_instance
    rw [if_neg (by simp [h1]), if_pos h2]
  · intro h3
    rcases h3 with rfl | rfl | rfl <;> simp +decide [new_instance]
  · intro h4
    rcases h4 with rfl | rfl | rfl | rfl <;> simp +decide [new_instance]
  · intro h5
    rcases h5 with rfl | rfl <;> simp +decide [new_instance]
  · intro c h1 h2 h3 h4 h5 hc
    refine ⟨?_, by simp⟩
    unfold new_instance
    rw [if_neg (by simp [h1]), if_neg (by simp [h2]), if_neg h3, if_neg h4,
      if_neg h5]
    unfold VM.get_classE
    rw [hc]
    rfl

theorem new_instance_defaults_and_allocation_witness :
    new_instance vmW frW hpW "d" "I" = .ok (frW.setReg "d" (.int 0), hpW) ∧
    new_instance vmW frW hpW "d" "F" =
      .ok (frW.setReg "d" (.float 0), hpW) ∧
    new_instance vmW frW hpW "d" "Ljava/lang/String;" =
      .ok (frW.setReg "d" (.str ""), hpW) ∧
    new_instance vmW frW hpW "d" "Z" =
      .ok (frW.setReg "d" (.bool false), hpW) ∧
    new_instance vmW frW hpW "d" "LUser;" =
      .ok (frW.setReg "d" (.obj 1),
        { hpW with objects := hpW.objects ++ [SmaliObject.mk userCls [] true] }) ∧
    new_instance vmW frW
        { hpW with objects := hpW.objects ++ [SmaliObject.mk userCls [] true] }
        "d" "LUser;" =
      .ok (frW.setReg "d" (.obj 2),
        { hpW with objects := (hpW.objects ++ [SmaliObject.mk userCls [] true])
            ++ [SmaliObject.mk userCls [] true] }) ∧
    (1 : Nat) ≠ 2 := by
  refine ⟨?_, ?_, ?_, ?_, ?_, ?_, by decide⟩
  · exact (new_instance_defaults_and_allocation vmW frW hpW "d" "I").1
      (by decide)
  · exact (new_instance_defaults_and_allocation vmW frW hpW "d" "F").2.1
      (by decide) (by decide)
  · exact (new_instance_defaults_and_allocation vmW frW hpW "d"
      "Ljava/lang/String;").2.2.1 (by decide)
  · exact (new_instance_defaults_and_allocation vmW frW hpW "d" "Z").2.2.2.2.1
      (by decide)
  · exact ((new_instance_defaults_and_allocation vmW frW hpW "d"
      "LUser;").2.2.2.2.2 userCls (by decide) (by decide) (by decide)
      (by decide) (by decide) (by decide)).1
  · exact ((new_instance_defaults_and_allocation vmW frW
      { hpW with objects := hpW.objects ++ [SmaliObject.mk userCls [] true] }
      "d" "LUser;").2.2.2.2.2 userCls (by decide) (by decide) (by decide)
      (by decide) (by decide) (by decide)).1

/-- C4: for a non-static invoke (direct or virtual) on a non-intrinsic
owner whose descriptor equals the direct superclass of the receiver's
declared class, the method is resolved on the class fetched for that
(superclass) descriptor — the receiver's own class and its method list
are never consulted, so the resolution stands even if the receiver's
class declares the same signature — and the external call's result is
stored in the frame's `method_return` slot, with registers and heap
untouched. -/
theorem invoke_super_resolution (vm : VM) (f : Frame) (h : Heap)
    (inv_type a0 : String) (rest : List String) (owner method : String)
    (oref : Nat) (orec : SmaliObject) (C : SmaliClass) (vals : List Value)
    (hty : inv_type = "direct" ∨ inv_type = "virtual")
    (hC : owner ≠ "Ljava/lang/Class;") (hO : owner ≠ "Ljava/lang/Object;")
    (hvals : (a0 :: rest).mapM f.getReg = .ok (.obj oref :: vals))
    (ho : h.object oref = .ok orec)
    (hsuper : orec.smali_class.super_cls = owner)
    (hcls : vm.get_class owner = some C)
    (hm : method ∈ C.sigs) :
    invoke vm f h inv_type (a0 :: rest) owner method =
      .ok ({ f with
              method_return :=
                vm.call (Target.mk C.name method) (.obj oref) vals },
           h) := by
  have htne : inv_type ≠ "static" := by rcases hty with rfl | rfl <;> decide
  have hin : inv_type = "direct" ∨ inv_type = "virtual" ∨
      inv_type = "static" := by rcases hty with rfl | rfl <;> simp
  unfold invoke
  rw [if_pos hin, if_neg hC, if_neg hO, hvals]
  simp only [Bind.bind, Except.bind]
  rw [if_pos htne]
  simp only [invoke.castRecv, Except.bind]
  rw [ho]
  simp only [Except.bind, hsuper, if_pos rfl]
  unfold VM.get_classE
  rw [hcls]
  simp only [Except.map, Except.bind, invoke.methodE, SmaliClass.method,
    if_pos hm]
  rfl

theorem invoke_super_resolution_witness :
    (["p0", "a1"].mapM frW.getReg = .ok (.obj 0 :: [.int 7])) ∧
    hpW.object 0 = .ok (SmaliObject.mk childCls [] true) ∧
    childCls.super_cls = "LParent;" ∧
    ("foo()V" ∈ childCls.sigs) ∧
    invoke vmW frW hpW "virtual" ["p0", "a1"] "LParent;" "foo()V" =
      .ok ({ frW with
              method_return :=
                vmW.call (Target.mk "LParent;" "foo()V") (.obj 0) [.int 7] },
           hpW) := by
  refine ⟨by decide, by decide, by decide, by decide, ?_⟩
  exact invoke_super_resolution vmW frW hpW "virtual" "p0" ["a1"] "LParent;"
    "foo()V" 0 (SmaliObject.mk childCls [] true) parentCls [.int 7]
    (Or.inr rfl) (by decide) (by decide) (by decide) (by decide) (by decide)
    (by decide) (by decide)

/-- C5: every jump-performing operation has goto's label semantics: a
label absent from the frame's label table faults with `NoSuchLabel`, a
present label sets the frame position to its table entry; every
conditional branch whose predicate evaluates true, every in-range
packed-switch branch, and every matched sparse-switch branch performs
exactly that `goto`. -/
theorem jump_operations_goto_semantics (f : Frame) (h : Heap) (l : String) :
    (f.labels.lookup l = none →
      goto f h l = .error ⟨"NoSuchLabelError", .str l⟩) ∧
    (∀ p : Int, f.labels.lookup l = some p →
      goto f h l = .ok ({ f with label := some l, pos := p }, h)) ∧
    (∀ a b v w, f.getReg a = .ok v → f.getReg b = .ok w →
      (pyLe v w = .ok true → if_le f h a b l = goto f h l) ∧
      (pyGe v w = .ok true → if_ge f h a b l = goto f h l) ∧
      (pyGt v w = .ok true → if_gt f h a b l = goto f h l) ∧
      (pyLt v w = .ok true → if_lt f h a b l = goto f h l) ∧
      (pyEq v w = false → if_ne f h a b l = goto f h l)) ∧
    (∀ a v, f.getReg a = .ok v →
      (pyGe v (.int 0) = .ok true → if_gez f h a l = goto f h l) ∧
      (pyLt v (.int 0) = .ok true → if_ltz f h a l = goto f h l) ∧
      (pyGt v (.int 0) = .ok true → if_gtz f h a l = goto f h l) ∧
      (pyLe v (.int 0) = .ok true → if_lez f h a l = goto f h l) ∧
      (pyEq v (.int 0) = false → if_nez f h a l = goto f h l) ∧
      (pyEq v (.int 0) = true → if_eqz f h a l = goto f h l)) ∧
    (∀ r d low cs v lowv, f.switch_data.lookup d = some (low, cs) →
      f.getReg r = .ok (.int v) → SmaliValue low = .int lowv →
      0 ≤ v - lowv → v - lowv < (cs.length : Int) →
      cs.getD (v - lowv).toNat "" = l →
      packed_switch f h r d = goto f h l) ∧
    (∀ r dl pre k post v,
      f.sparse_data.lookup dl = some (pre ++ (k, l) :: post) →
      f.getReg r = .ok v →
      (∀ q ∈ pre, pyEq (SmaliValue q.1) v = false) →
      pyEq (SmaliValue k) v = true →
      sparse_switch f h r dl = goto f h l) := by
  refine ⟨?_, ?_, ?_, ?_, ?_, ?_⟩
  · intro hnone
    unfold goto gotoA
    rw [hnone]
    rfl
  · intro p hp
    unfold goto gotoA
    rw [hp]
    rfl
  · intro a b v w ha hb
    refine ⟨?_, ?_, ?_, ?_, ?_⟩ <;> intro hcmp
    · unfold if_le if_cmp
      rw [ha]
      simp only [Bind.bind, Except.bind]
      rw [hb]
      simp only [Except.bind]
      rw [hcmp]
      rfl
    · unfold if_ge if_cmp
      rw [ha]
      simp only [Bind.bind, Except.bind]
      rw [hb]
      simp only [Except.bind]
      rw [hcmp]
      rfl
    · unfold if_gt if_cmp
      rw [ha]
      simp only [Bind.bind, Except.bind]
      rw [hb]
      simp only [Except.bind]
      rw [hcmp]
      rfl
    · unfold if_lt if_cmp
      rw [ha]
      simp only [Bind.bind, Except.bind]
      rw [hb]
      simp only [Except.bind]
      rw [hcmp]
      rfl
    · unfold if_ne
      rw [ha]
      simp only [Bind.bind, Except.bind]
      rw [hb]
      simp only [Except.bind]
      rw [hcmp]
      rfl
  · intro a v ha
    refine ⟨?_, ?_, ?_, ?_, ?_, ?_⟩ <;> intro hcmp
    · unfold if_gez if_zero
      rw [ha]
      simp only [Bind.bind, Except.bind]
      rw [hcmp]
      rfl
    · unfold if_ltz if_zero
      rw [ha]
      simp only [Bind.bind, Except.bind]
      rw [hcmp]
      rfl
    · unfold if_gtz if_zero
      rw [ha]
      simp only [Bind.bind, Except.bind]
      rw [hcmp]
      rfl
    · unfold if_lez if_zero
      rw [ha]
      simp only [Bind.bind, Except.bind]
      rw [hcmp]
      rfl
    · unfold if_nez if_zero_eq
      rw [ha]
      simp only [Bind.bind, Except.bind]
      rw [hcmp]
      rfl
    · unfold if_eqz if_zero_eq
      rw [ha]
      simp only [Bind.bind, Except.bind]
      rw [hcmp]
      rfl
  · intro r d low cs v lowv hsd hreg hlow h0 hlen hget
    have h1 : packed_switch f h r d = (do
        let value ← f.getReg r
        let idxv ← pySub value (SmaliValue low)
        match idxv with
        | Value.int idx =>
          if idx < 0 ∨ (cs.length : Int) ≤ idx then .ok (f, h)
          else goto f h (cs.getD idx.toNat "")
        | _ => .error (typeFault "list index")) := by
      unfold packed_switch
      rw [hsd]
    rw [h1, hreg, hlow]
    have h2 : (do
        let idxv ← pySub (Value.int v) (Value.int lowv)
        match idxv with
        | Value.int idx =>
          if idx < 0 ∨ (cs.length : Int) ≤ idx then Except.ok (f, h)
          else goto f h (cs.getD idx.toNat "")
        | _ => (.error (typeFault "list index") : StepR)) =
        (if v - lowv < 0 ∨ (cs.length : Int) ≤ v - lowv then .ok (f, h)
         else goto f h (cs.getD (v - lowv).toNat "")) := rfl
    rw [show ((Except.ok (Value.int v) : Except EErr Value) >>= fun value =>
        (pySub value (Value.int lowv)) >>= fun idxv =>
        (match idxv with
        | Value.int idx =>
          if idx < 0 ∨ (cs.length : Int) ≤ idx then Except.ok (f, h)
          else goto f h (cs.getD idx.toNat "")
        | _ => (.error (typeFault "list index") : StepR))) =
        (if v - lowv < 0 ∨ (cs.length : Int) ≤ v - lowv then .ok (f, h)
         else goto f h (cs.getD (v - lowv).toNat "")) from rfl]
    rw [if_neg (by omega), hget]
  · intro r dl pre k post v hsd hreg hpre hk
    have h2 : sparse_switch f h r dl =
        sparse_scan f h v (pre ++ (k, l) :: post) := by
      unfold sparse_switch
      rw [hsd, hreg]
      rfl
    rw [h2]
    clear h2 hsd
    induction pre with
    | nil =>
      show (if pyEq (SmaliValue k) v = true then goto f h l
            else sparse_scan f h v post) = goto f h l
      rw [hk]
      rfl
    | cons q rest ih =>
      show (if pyEq (SmaliValue q.1) v = true then goto f h q.2
            else sparse_scan f h v (rest ++ (k, l) :: post)) = goto f h l
      rw [hpre q (by simp), if_neg (by decide)]
      exact ih (fun q2 hq2 => hpre q2 (by simp [hq2]))


theorem jump_operations_goto_semantics_witness :
    goto frW hpW "nolabel" = .error ⟨"NoSuchLabelError", .str "nolabel"⟩ ∧
    goto frW hpW "target" =
      .ok ({ frW with label := some "target", pos := 4 }, hpW) ∧
    if_le frW hpW "x" "y" "target" = goto frW hpW "target" ∧
    if_nez frW hpW "l" "target" = goto frW hpW "target" ∧
    packed_switch frW hpW "s2" "D" = goto frW hpW "Lb" ∧
    sparse_switch frW hpW "l" "S" = goto frW hpW "target" := by
  refine ⟨?_, ?_, ?_, ?_, ?_, ?_⟩
  · exact (jump_operations_goto_semantics frW hpW "nolabel").1 (by decide)
  · exact (jump_operations_goto_semantics frW hpW "target").2.1 4 (by decide)
  · exact ((jump_operations_goto_semantics frW hpW "target").2.2.1 "x" "y"
      (.int 1) (.int 2) (by decide) (by decide)).1 (by decide)
  · exact ((jump_operations_goto_semantics frW hpW "target").2.2.2.1 "l"
      (.int 3) (by decide)).2.2.2.2.1 (by decide)
  · exact (jump_operations_goto_semantics frW hpW "Lb").2.2.2.2.1 "s2" "D"
      "1" ["La", "Lb"] 2 1 (by decide) (by decide) (by decide) (by decide)
      (by decide) (by decide)
  · exact (jump_operations_goto_semantics frW hpW "target").2.2.2.2.2 "l"
      "S" [("8", "missing")] "3" [] (.int 3) (by decide) (by decide)
      (by decide) (by decide)

end Pysmali
